import Mathlib

/-!
Verification development for the Comet command-line driver slice
(`Comet.cpp`: `main`, `SetOptions`, `LoadParameters`, `ParseCmdLine`,
`ProcessCmdLine`, `PrintParams`, `ValidateInputFile`) and the desktop
dialog's `ConfigureMassSettings` (`RunSearchDlg.cs`).

Modelling conventions:
* A parameter file is a list of lines (what `fgets` reads), without the
  trailing newline; none of the scanning primitives used by the code can
  distinguish a line from the same line with its newline stripped.
* C strings are `List Char` / `String`; `sscanf` conversions are modelled
  faithfully, including the fact that a failed conversion leaves its
  destination variable unchanged (the "sticky locals" of `LoadParameters`
  are threaded through an explicit `Scratch` record, and uninitialised
  stack memory is an arbitrary input quantified over in the theorems).
* C `double` values are modelled as exact scaled decimals `num / 10^den10`
  (`Dbl`); every number the claims touch is an exact decimal literal, and
  both the loader and the writer go through the same grammar, so no
  floating-point rounding is observable at the granularity of the claims.
* The search manager (`ICometSearchManager`, source not in this excerpt)
  is modelled as an association list from parameter name to typed value;
  `SetParam(name, strVal, typedVal)` stores the typed value (the parallel
  string store of the manager is not needed by any claim).
* `exit(n)` is modelled with `Except`: an `.error` carries the exit code
  (or a `LoadError` that maps to its exit code).
-/

namespace Comet

/-! ### C character and string scanning primitives -/

/-- C `isspace` on the character set that can occur in parameter files. -/
def isSpc (c : Char) : Bool :=
  c = ' ' || c = '\t' || c = '\n' || c = '\r' || c = '\x0b' || c = '\x0c'

def isDigitCh (c : Char) : Bool :=
  '0' ≤ c && c ≤ '9'

def digitVal (c : Char) : Nat := c.toNat - '0'.toNat

def takeDigits (l : List Char) : List Char × List Char :=
  (l.takeWhile isDigitCh, l.dropWhile isDigitCh)

def digitsToNat (l : List Char) : Nat :=
  l.foldl (fun a c => a * 10 + digitVal c) 0

/-- `sscanf` `%d`: skip whitespace, optional sign, at least one digit;
    on failure the destination is left unchanged (callers handle this). -/
def readIntTok (l : List Char) : Option (Int × List Char) :=
  let l1 := l.dropWhile isSpc
  let p : Bool × List Char :=
    match l1 with
    | '-' :: r => (true, r)
    | '+' :: r => (false, r)
    | _ => (false, l1)
  let d := takeDigits p.2
  if d.1.isEmpty then none
  else some (if p.1 then -(digitsToNat d.1 : Int) else (digitsToNat d.1 : Int), d.2)

/-- C `atoi`: like `%d` but yields 0 when no digits are found. -/
def atoiM (s : String) : Int :=
  match readIntTok s.data with
  | some p => p.1
  | none => 0

/-- Exact model of a C `double` that was read from decimal text:
    the value `num / 10 ^ den10`. -/
structure Dbl where
  num : Int
  den10 : Nat
deriving DecidableEq

def Dbl.le (a b : Dbl) : Prop :=
  a.num * (10 : Int) ^ b.den10 ≤ b.num * (10 : Int) ^ a.den10

instance (a b : Dbl) : Decidable (Dbl.le a b) := by
  unfold Dbl.le; infer_instance

/-- Semantic (value) equality of two scaled decimals. -/
def Dbl.eqv (a b : Dbl) : Prop :=
  a.num * (10 : Int) ^ b.den10 = b.num * (10 : Int) ^ a.den10

instance (a b : Dbl) : Decidable (Dbl.eqv a b) := by
  unfold Dbl.eqv; infer_instance

def dblZero : Dbl := ⟨0, 0⟩

def applyExpPart (mant : Int) (den10 : Nat) (r : List Char) : Option (Dbl × List Char) :=
  let p : Bool × List Char :=
    match r with
    | '-' :: t => (true, t)
    | '+' :: t => (false, t)
    | _ => (false, r)
  let d := takeDigits p.2
  if d.1.isEmpty then none
  else
    let e := digitsToNat d.1
    if p.1 then some (⟨mant, den10 + e⟩, d.2)
    else some (⟨mant * (10 : Int) ^ e, den10⟩, d.2)

/-- `sscanf` `%lf` on decimal text: sign, integer digits, optional fraction,
    optional exponent.  Following `scanf` matching, a bare `e`/`E` with no
    exponent digits makes the whole conversion fail. -/
def readDblTok (l : List Char) : Option (Dbl × List Char) :=
  let l1 := l.dropWhile isSpc
  let p : Bool × List Char :=
    match l1 with
    | '-' :: r => (true, r)
    | '+' :: r => (false, r)
    | _ => (false, l1)
  let ip := takeDigits p.2
  let fp : List Char × List Char :=
    match ip.2 with
    | '.' :: r => takeDigits r
    | _ => ([], ip.2)
  if ip.1.isEmpty && fp.1.isEmpty then none
  else
    let m : Nat := digitsToNat ip.1 * 10 ^ fp.1.length + digitsToNat fp.1
    let mant : Int := if p.1 then -(m : Int) else (m : Int)
    match fp.2 with
    | 'e' :: r => applyExpPart mant fp.1.length r
    | 'E' :: r => applyExpPart mant fp.1.length r
    | _ => some (⟨mant, fp.1.length⟩, fp.2)

/-- `sscanf` `%<w>s`: skip whitespace, read up to `w` non-whitespace
    characters; fails (destination untouched) when no token is present. -/
def tokenW (w : Nat) (l : List Char) : Option (String × List Char) :=
  let l1 := l.dropWhile isSpc
  let t := l1.takeWhile (fun c => !(isSpc c))
  if t.isEmpty then none
  else some (String.mk (t.take w), l1.drop (min w t.length))

/-- `sscanf` `%s` with no width limit (used for the `%*s` skips). -/
def tokenNW (l : List Char) : Option (String × List Char) :=
  let l1 := l.dropWhile isSpc
  let t := l1.takeWhile (fun c => !(isSpc c))
  if t.isEmpty then none
  else some (String.mk t, l1.drop t.length)

/-- `*strchr(buf, '#') = 0`: truncate the line at the first `#`. -/
def stripComment (l : List Char) : List Char :=
  l.takeWhile (fun c => c ≠ '#')

/-- Split a line at its first `=` (the code nulls the `=` and keeps both
    halves); `none` when the line has no `=`. -/
def splitEq (l : List Char) : Option (List Char × List Char) :=
  let pre := l.takeWhile (fun c => c ≠ '=')
  if pre.length = l.length then none
  else some (pre, l.drop (pre.length + 1))

/-- The whitespace trimming loops used for `database_name`, `mass_offsets`,
    etc. (trim the end, then the beginning). -/
def trimWS (l : List Char) : List Char :=
  ((l.dropWhile isSpc).reverse.dropWhile isSpc).reverse

def splitTokensAux (delim : Char → Bool) : List Char → List Char → List (List Char)
  | acc, [] => if acc.isEmpty then [] else [acc.reverse]
  | acc, c :: rest =>
    if delim c then
      if acc.isEmpty then splitTokensAux delim [] rest
      else acc.reverse :: splitTokensAux delim [] rest
    else splitTokensAux delim (c :: acc) rest

/-- `strtok` tokenisation: maximal runs of non-delimiter characters. -/
def splitTokens (delim : Char → Bool) (l : List Char) : List (List Char) :=
  splitTokensAux delim [] l

def isTabOrSpace (c : Char) : Bool := c = ' ' || c = '\t'

/-! ### Typed parameter values and the manager's parameter store -/

/-- `VarMods` (CometData.h), as filled in by the `variable_mod??` branch. -/
structure VarMods where
  dVarModMass : Dbl
  szVarModChar : String
  iBinaryMod : Int
  iMaxNumVarModAAPerMod : Int
  iMinNumVarModAAPerMod : Int
  iVarModTermDistance : Int
  iWhichTerm : Int
  bRequireThisMod : Int
  dNeutralLoss : Dbl
deriving DecidableEq

/-- `EnzymeInfo` (CometData.h), as filled in by the enzyme-table loop. -/
structure EnzymeInfo where
  szSearchEnzymeName : String
  iSearchEnzymeOffSet : Int
  szSearchEnzymeBreakAA : String
  szSearchEnzymeNoBreakAA : String
  szSearchEnzyme2Name : String
  iSearchEnzyme2OffSet : Int
  szSearchEnzyme2BreakAA : String
  szSearchEnzyme2NoBreakAA : String
  szSampleEnzymeName : String
  iSampleEnzymeOffSet : Int
  szSampleEnzymeBreakAA : String
  szSampleEnzymeNoBreakAA : String
  iAllowedMissedCleavage : Int
deriving DecidableEq

/-- Modelled from the spec: the default construction of `EnzymeInfo`
    (CometData.h is not part of this excerpt).  The loader's
    missing-enzyme checks compare the name fields against `"-"`, and the
    spec says a missing enzyme definition is a fatal configuration error,
    so default construction is taken to leave the names `"-"` (the numeric
    fields start at 0; no claim depends on them). -/
def enzymeInfoDefault : EnzymeInfo :=
  { szSearchEnzymeName := "-", iSearchEnzymeOffSet := 0
    szSearchEnzymeBreakAA := "", szSearchEnzymeNoBreakAA := ""
    szSearchEnzyme2Name := "-", iSearchEnzyme2OffSet := 0
    szSearchEnzyme2BreakAA := "", szSearchEnzyme2NoBreakAA := ""
    szSampleEnzymeName := "-", iSampleEnzymeOffSet := 0
    szSampleEnzymeBreakAA := "", szSampleEnzymeNoBreakAA := ""
    iAllowedMissedCleavage := 0 }

/-- A typed parameter value as passed to `ICometSearchManager::SetParam`. -/
inductive PVal
  | i (n : Int)
  | l (n : Int)
  | d (q : Dbl)
  | s (v : String)
  | ir (a b : Int)
  | dr (a b : Dbl)
  | dl (xs : List Dbl)
  | vm (v : VarMods)
  | ez (e : EnzymeInfo)
deriving DecidableEq

/-- Ordered association update: the manager's parameter map. -/
def setAssoc : List (String × PVal) → String → PVal → List (String × PVal)
  | [], k, v => [(k, v)]
  | p :: t, k, v => if p.1 = k then (p.1, v) :: t else p :: setAssoc t k v

/-! ### The sticky locals of `LoadParameters` -/

/-- The locals of `LoadParameters` that are reused across lines (a failed
    `sscanf` conversion leaves them holding their previous contents), plus
    the uninitialised stack variables the code can read (`szTmp` in the
    `variable_mod` branch, `dMass` in the mass-list branches).  Their
    initial contents are arbitrary and are quantified over. -/
structure Scratch where
  iIntParam : Int
  dDoubleParam : Dbl
  lLongParam : Int
  varMods : VarMods
  szParamName : String
  szTmpGarbage : String
  dMassGarbage : Dbl
deriving DecidableEq

/-- The evolving state of `LoadParameters`: the manager's parameter map,
    the warnings logged so far, the sticky locals, the enzyme-number
    locals, and the `bCurrentParamsFile` flag. -/
structure LoadSt where
  params : List (String × PVal)
  warnings : List String
  scr : Scratch
  iSearchEnzymeNumber : Int
  iSearchEnzyme2Number : Int
  iSampleEnzymeNumber : Int
  iAllowedMissedCleavages : Int
  bCurrentParamsFile : Bool
deriving DecidableEq

def LoadSt.setP (st : LoadSt) (k : String) (v : PVal) : LoadSt :=
  { st with params := setAssoc st.params k v }

/-! ### The per-key handlers of the `LoadParameters` dispatch -/

/-- `database_name` / `dia_windows_file` / `peff_obo`: trim whitespace at
    both ends and store the rest verbatim. -/
def runFileP (k : String) (st : LoadSt) (v : List Char) : LoadSt :=
  st.setP k (.s (String.mk (trimWS v)))

/-- `%<w>s` into a buffer zeroed beforehand (`decoy_prefix` etc.): a
    missing token stores the empty string. -/
def runStrP (w : Nat) (k : String) (st : LoadSt) (v : List Char) : LoadSt :=
  let s := match tokenW w v with
    | some p => p.1
    | none => ""
  st.setP k (.s s)

/-- `%d` into the sticky `iIntParam` (optionally reset to 0 first), then
    store it. -/
def runIntP (reset : Bool) (k : String) (st : LoadSt) (v : List Char) : LoadSt :=
  let cur := if reset then 0 else st.scr.iIntParam
  let n := match readIntTok v with
    | some p => p.1
    | none => cur
  let st := { st with scr := { st.scr with iIntParam := n } }
  st.setP k (.i n)

/-- `%ld` into the sticky `lLongParam` (`max_iterations`). -/
def runLongP (k : String) (st : LoadSt) (v : List Char) : LoadSt :=
  let n := match readIntTok v with
    | some p => p.1
    | none => st.scr.lLongParam
  let st := { st with scr := { st.scr with lLongParam := n } }
  st.setP k (.l n)

/-- `%lf` into the sticky `dDoubleParam`, then store it. -/
def runDblP (k : String) (st : LoadSt) (v : List Char) : LoadSt :=
  let q := match readDblTok v with
    | some p => p.1
    | none => st.scr.dDoubleParam
  let st := { st with scr := { st.scr with dDoubleParam := q } }
  st.setP k (.d q)

/-- `"%d %d"` into an `IntRange` reset to (0,0) first (`scan_range` etc.);
    `sscanf` stops at the first failing conversion. -/
def runIrP (k : String) (st : LoadSt) (v : List Char) : LoadSt :=
  match readIntTok v with
  | none => st.setP k (.ir 0 0)
  | some p =>
    match readIntTok p.2 with
    | none => st.setP k (.ir p.1 0)
    | some q => st.setP k (.ir p.1 q.1)

/-- `"%lf %lf"` into a `DoubleRange` reset to (0,0) first. -/
def runDrP (k : String) (st : LoadSt) (v : List Char) : LoadSt :=
  match readDblTok v with
  | none => st.setP k (.dr dblZero dblZero)
  | some p =>
    match readDblTok p.2 with
    | none => st.setP k (.dr p.1 dblZero)
    | some q => st.setP k (.dr p.1 q.1)

/-- The token loop of the `mass_offsets` / `precursor_NL_ions` branches:
    `sscanf(tok, "%lf", &dMass)` leaves `dMass` unchanged when the token
    does not parse, and the value is pushed whenever `dMass >= 0.0`, so an
    unparseable token repeats the previously parsed value (`d0` is the
    uninitialised initial contents of `dMass`). -/
def stickyMassList (d0 : Dbl) : List (List Char) → List Dbl
  | [] => []
  | t :: ts =>
    let d := match readDblTok t with
      | some p => p.1
      | none => d0
    if Dbl.le dblZero d then d :: stickyMassList d ts else stickyMassList d ts

def insertDbl (x : Dbl) : List Dbl → List Dbl
  | [] => [x]
  | y :: t => if Dbl.le x y then x :: y :: t else y :: insertDbl x t

/-- `std::sort` on the collected masses (a sorted permutation; for a
    totally ordered value type all sorted permutations coincide). -/
def sortDbl : List Dbl → List Dbl
  | [] => []
  | x :: t => insertDbl x (sortDbl t)

def runListP (k : String) (st : LoadSt) (v : List Char) : LoadSt :=
  let ts := splitTokens isTabOrSpace (trimWS v)
  st.setP k (.dl (sortDbl (stickyMassList st.scr.dMassGarbage ts)))

/-- `output_percolatorfile`: an int parameter that also marks the params
    file as current. -/
def runPercoP (st : LoadSt) (v : List Char) : LoadSt :=
  let st := runIntP false "output_percolatorfile" st v
  { st with bCurrentParamsFile := true }

def runEnz1P (st : LoadSt) (v : List Char) : LoadSt :=
  let n := match readIntTok v with
    | some p => p.1
    | none => st.iSearchEnzymeNumber
  let st := { st with iSearchEnzymeNumber := n }
  st.setP "search_enzyme_number" (.i n)

def runEnz2P (st : LoadSt) (v : List Char) : LoadSt :=
  let n := match readIntTok v with
    | some p => p.1
    | none => st.iSearchEnzyme2Number
  let st := { st with iSearchEnzyme2Number := n }
  st.setP "search_enzyme2_number" (.i n)

def runEnzSampP (st : LoadSt) (v : List Char) : LoadSt :=
  let n := match readIntTok v with
    | some p => p.1
    | none => st.iSampleEnzymeNumber
  let st := { st with iSampleEnzymeNumber := n }
  st.setP "sample_enzyme_number" (.i n)

def runMissedP (st : LoadSt) (v : List Char) : LoadSt :=
  let n := match readIntTok v with
    | some p => p.1
    | none => st.iAllowedMissedCleavages
  let st := { st with iAllowedMissedCleavages := n }
  st.setP "allowed_missed_cleavage" (.i n)

/-! ### The `variable_mod??` branch -/

/-- The eight-conversion `sscanf` of the `variable_mod??` branch;
    conversions stop at the first failure, leaving the remaining sticky
    struct fields unchanged.  Returns the updated struct and the fourth
    token when it was reached (`none` means `szTmp` holds uninitialised
    stack contents). -/
def scanVarMod (scr : Scratch) (v : List Char) : VarMods × Option String :=
  let v0 := { scr.varMods with szVarModChar := "" }
  match readDblTok v with
  | none => (v0, none)
  | some m1 =>
    let v1 := { v0 with dVarModMass := m1.1 }
    match tokenW 31 m1.2 with
    | none => (v1, none)
    | some m2 =>
      let v2 := { v1 with szVarModChar := m2.1 }
      match readIntTok m2.2 with
      | none => (v2, none)
      | some m3 =>
        let v3 := { v2 with iBinaryMod := m3.1 }
        match tokenW 511 m3.2 with
        | none => (v3, none)
        | some m4 =>
          match readIntTok m4.2 with
          | none => (v3, some m4.1)
          | some m5 =>
            let v5 := { v3 with iVarModTermDistance := m5.1 }
            match readIntTok m5.2 with
            | none => (v5, some m4.1)
            | some m6 =>
              let v6 := { v5 with iWhichTerm := m6.1 }
              match readIntTok m6.2 with
              | none => (v6, some m4.1)
              | some m7 =>
                let v7 := { v6 with bRequireThisMod := m7.1 }
                match readDblTok m7.2 with
                | none => (v7, some m4.1)
                | some m8 => ({ v7 with dNeutralLoss := m8.1 }, some m4.1)

def replaceFirstComma : List Char → List Char
  | [] => []
  | c :: r => if c = ',' then ' ' :: r else c :: replaceFirstComma r

/-- The comma handling of the fourth field: `max` only, or `min,max`. -/
def applyMinMax (vm : VarMods) (t : String) : VarMods :=
  if t.data.all (fun c => c ≠ ',') then
    match readIntTok t.data with
    | some p => { vm with iMaxNumVarModAAPerMod := p.1 }
    | none => vm
  else
    match readIntTok (replaceFirstComma t.data) with
    | none => vm
    | some p =>
      let vm := { vm with iMinNumVarModAAPerMod := p.1 }
      match readIntTok p.2 with
      | none => vm
      | some q => { vm with iMaxNumVarModAAPerMod := q.1 }

def runVarModKV (st : LoadSt) (name : String) (v : List Char) : LoadSt :=
  let r := scanVarMod st.scr v
  let t := match r.2 with
    | some t => t
    | none => st.scr.szTmpGarbage
  let vm := applyMinMax r.1 t
  let st := { st with scr := { st.scr with varMods := vm } }
  st.setP name (.vm vm)

/-- The `strncmp(szParamName, "variable_mod", 12) && strlen == 14` test. -/
def isVarModKey (n : String) : Bool :=
  "variable_mod".data.isPrefixOf n.data && n.data.length = 14

/-! ### The parameter-name dispatch table -/

/-- One handler kind per shape of branch in the `LoadParameters` chain. -/
inductive H
  | fileP
  | strP (w : Nat)
  | intP
  | intP0
  | intPAs (store : String)
  | longP
  | dblP
  | irP
  | drP
  | listP
  | percoP
  | enz1P
  | enz2P
  | enzSampP
  | missedP
deriving DecidableEq

def runH (h : H) (key : String) (st : LoadSt) (v : List Char) : LoadSt :=
  match h with
  | .fileP => runFileP key st v
  | .strP w => runStrP w key st v
  | .intP => runIntP false key st v
  | .intP0 => runIntP true key st v
  | .intPAs store => runIntP false store st v
  | .longP => runLongP key st v
  | .dblP => runDblP key st v
  | .irP => runIrP key st v
  | .drP => runDrP key st v
  | .listP => runListP key st v
  | .percoP => runPercoP st v
  | .enz1P => runEnz1P st v
  | .enz2P => runEnz2P st v
  | .enzSampP => runEnzSampP st v
  | .missedP => runMissedP st v

/-- The `strcmp` chain of `LoadParameters`, rendered as an ordered
    first-match table (the keys are pairwise distinct, so first-match
    lookup coincides with the `else if` chain; source order is kept).
    The `variable_mod??` pattern branch is handled separately in
    `processKVLine`; no table key matches that pattern. -/
def paramTable : List (String × H) :=
  [ ("database_name", H.fileP),
    ("dia_windows_file", H.fileP),
    ("peff_obo", H.fileP),
    ("decoy_prefix", H.strP 255),
    ("output_suffix", H.strP 255),
    ("text_file_extension", H.strP 255),
    ("explicit_deltacn", H.intP),
    ("mass_offsets", H.listP),
    ("precursor_NL_ions", H.listP),
    ("old_mods_encoding", H.intP),
    ("nucleotide_reading_frame", H.intP),
    ("mass_type_parent", H.intP),
    ("mass_type_fragment", H.intP),
    ("show_fragment_ions", H.intP),
    ("num_threads", H.intP),
    ("clip_nterm_methionine", H.intP),
    ("clip_nterm_aa", H.intP),
    ("pin_mod_proteindelim", H.intPAs "pin_proteindelim_comma"),
    ("minimum_xcorr", H.dblP),
    ("theoretical_fragment_ions", H.intP),
    ("use_A_ions", H.intP),
    ("use_B_ions", H.intP),
    ("use_C_ions", H.intP),
    ("use_X_ions", H.intP),
    ("use_Y_ions", H.intP),
    ("use_Z_ions", H.intP),
    ("use_Z1_ions", H.intP),
    ("use_NL_ions", H.intP),
    ("max_variable_mods_in_peptide", H.intP),
    ("require_variable_mod", H.strP 255),
    ("fragment_bin_tol", H.dblP),
    ("fragment_bin_offset", H.dblP),
    ("peptide_mass_tolerance", H.dblP),
    ("peptide_mass_tolerance_lower", H.dblP),
    ("precursor_tolerance_type", H.intP),
    ("peptide_mass_units", H.intP),
    ("isotope_error", H.intP),
    ("num_output_lines", H.intP),
    ("num_results", H.intP),
    ("max_duplicate_proteins", H.intP),
    ("remove_precursor_peak", H.intP),
    ("remove_precursor_tolerance", H.dblP),
    ("clear_mz_range", H.drP),
    ("export_additional_pepxml_scores", H.intP),
    ("print_expect_score", H.intP),
    ("resolve_fullpaths", H.intP),
    ("output_sqtstream", H.intP),
    ("output_sqtfile", H.intP),
    ("output_txtfile", H.intP),
    ("output_pepxmlfile", H.intP),
    ("output_mzidentmlfile", H.intP),
    ("output_percolatorfile", H.percoP),
    ("output_outfiles", H.intP),
    ("skip_researching", H.intP),
    ("peff_verbose_output", H.intP),
    ("add_Cterm_peptide", H.dblP),
    ("add_Nterm_peptide", H.dblP),
    ("add_Cterm_protein", H.dblP),
    ("add_Nterm_protein", H.dblP),
    ("add_G_glycine", H.dblP),
    ("add_A_alanine", H.dblP),
    ("add_S_serine", H.dblP),
    ("add_P_proline", H.dblP),
    ("add_V_valine", H.dblP),
    ("add_T_threonine", H.dblP),
    ("add_C_cysteine", H.dblP),
    ("add_U_selenocysteine", H.dblP),
    ("add_L_leucine", H.dblP),
    ("add_I_isoleucine", H.dblP),
    ("add_N_asparagine", H.dblP),
    ("add_O_pyrrolysine", H.dblP),
    ("add_D_aspartic_acid", H.dblP),
    ("add_Q_glutamine", H.dblP),
    ("add_K_lysine", H.dblP),
    ("add_E_glutamic_acid", H.dblP),
    ("add_M_methionine", H.dblP),
    ("add_H_histidine", H.dblP),
    ("add_F_phenylalanine", H.dblP),
    ("add_R_arginine", H.dblP),
    ("add_Y_tyrosine", H.dblP),
    ("add_W_tryptophan", H.dblP),
    ("add_B_user_amino_acid", H.dblP),
    ("add_J_user_amino_acid", H.dblP),
    ("add_X_user_amino_acid", H.dblP),
    ("add_Z_user_amino_acid", H.dblP),
    ("search_enzyme_number", H.enz1P),
    ("search_enzyme2_number", H.enz2P),
    ("sample_enzyme_number", H.enzSampP),
    ("num_enzyme_termini", H.intP),
    ("allowed_missed_cleavage", H.missedP),
    ("peptide_length_range", H.irP),
    ("scan_range", H.irP),
    ("spectrum_batch_size", H.intP),
    ("minimum_peaks", H.intP0),
    ("precursor_charge", H.irP),
    ("override_charge", H.intP0),
    ("correct_mass", H.intP0),
    ("equal_I_and_L", H.intP0),
    ("max_fragment_charge", H.intP0),
    ("min_fragmentindex_mass", H.dblP),
    ("max_fragmentindex_mass", H.dblP),
    ("max_precursor_charge", H.intP0),
    ("digest_mass_range", H.drP),
    ("ms_level", H.intP0),
    ("activation_method", H.strP 23),
    ("minimum_intensity", H.dblP),
    ("percentage_base_peak", H.dblP),
    ("decoy_search", H.intP),
    ("peff_format", H.intP),
    ("xcorr_processing_offset", H.intP),
    ("mango_search", H.intP),
    ("scale_fragmentNL", H.intP),
    ("max_iterations", H.longP) ]

def warnMsg (name : String) : String :=
  " Warning - invalid parameter found: " ++ name ++ ".  Parameter will be ignored.\n"

/-- One iteration of the key/value loop of `LoadParameters`: strip the
    comment, split at `=`, read the parameter name (`%127s`, sticky:
    a nameless line reuses the previous contents of `szParamName`),
    then dispatch. -/
def processKVLine (st : LoadSt) (line : List Char) : LoadSt :=
  let l := stripComment line
  match splitEq l with
  | none => st
  | some nv =>
    let name := match tokenW 127 nv.1 with
      | some p => p.1
      | none => st.scr.szParamName
    let st := { st with scr := { st.scr with szParamName := name } }
    if isVarModKey name then runVarModKV st name nv.2
    else
      match paramTable.find? (fun p => p.1 == name) with
      | some p => runH p.2 name st nv.2
      | none => { st with warnings := st.warnings ++ [warnMsg name] }

/-! ### The three phases of `LoadParameters` -/

/-- The parameter-name dispatch recognises a key when it is one of the
    table keys or matches the `variable_mod??` pattern. -/
def recognizedKey (n : String) : Bool :=
  isVarModKey n || paramTable.any (fun p => p.1 == n)

/-- The `"%*s %*s %127s %11s %11s"` scan of a `# comet_version` line; the
    version destination is sticky (`cur`), and the two revision buffers
    are uninitialised stack memory when absent (modelled as `""`; no
    claim depends on their garbage contents). -/
def versionTok3 (cur : String) (l : List Char) : String × String × String :=
  match tokenNW l with
  | none => (cur, "", "")
  | some s1 =>
    match tokenNW s1.2 with
    | none => (cur, "", "")
    | some s2 =>
      match tokenW 127 s2.2 with
      | none => (cur, "", "")
      | some s3 =>
        match tokenW 11 s3.2 with
        | none => (s3.1, "", "")
        | some s4 =>
          match tokenW 11 s4.2 with
          | none => (s3.1, s4.1, "")
          | some s5 => (s3.1, s4.1, s5.1)

def versionMarker : String := "# comet_version "

/-- Whether a line is a version-marker line whose version token the
    manager accepts (with the sticky version buffer at `cur`). -/
def validVersionLine (validVer : String → Bool) (cur : String) (ln : String) : Bool :=
  versionMarker.data.isPrefixOf ln.data && validVer (versionTok3 cur ln.data).1

/-- The stored `"%.100s %.11s %.11s"` rendering of the accepted version. -/
def versionStored (cur : String) (ln : String) : String :=
  let t := versionTok3 cur ln.data
  String.mk (t.1.data.take 100) ++ " " ++ String.mk (t.2.1.data.take 11) ++ " "
    ++ String.mk (t.2.2.data.take 11)

/-- Phase one of `LoadParameters`: scan the file for a `# comet_version `
    line whose version the manager accepts; `none` means the file is
    rejected.  `cur` threads the sticky `szVersion` buffer (initially
    `"unknown"`). -/
def versionScanAux (validVer : String → Bool) (cur : String) : List String → Option String
  | [] => none
  | ln :: rest =>
    if versionMarker.data.isPrefixOf ln.data then
      let t := versionTok3 cur ln.data
      if validVer t.1 then some (versionStored cur ln)
      else versionScanAux validVer t.1 rest
    else versionScanAux validVer cur rest

def isEnzymeMarker (cs : List Char) : Bool :=
  "[COMET_ENZYME_INFO]".data.isPrefixOf cs

/-- Phase two: fold the key/value parser over the lines, stopping at the
    `[COMET_ENZYME_INFO]` marker; returns the state and the lines after
    the marker (the enzyme table). -/
def kvFold (st : LoadSt) : List String → LoadSt × List String
  | [] => (st, [])
  | ln :: rest =>
    if isEnzymeMarker ln.data then (st, rest)
    else kvFold (processKVLine st ln.data) rest

/-- The lines phase two actually feeds through `processKVLine`. -/
def kvLines (lines : List String) : List String :=
  lines.takeWhile (fun ln => !(isEnzymeMarker ln.data))

/-- The result of the `"%lf %47s %d %19s %19s"` scan of one enzyme-table
    line; conversions stop at the first failure and only the converted
    fields are written. -/
structure EnzParse where
  name : Option String
  off : Option Int
  brk : Option String
  nobrk : Option String
deriving DecidableEq

def parseEnzymeLine (l : List Char) : EnzParse :=
  match readDblTok l with
  | none => ⟨none, none, none, none⟩
  | some m1 =>
    match tokenW 47 m1.2 with
    | none => ⟨none, none, none, none⟩
    | some m2 =>
      match readIntTok m2.2 with
      | none => ⟨some m2.1, none, none, none⟩
      | some m3 =>
        match tokenW 19 m3.2 with
        | none => ⟨some m2.1, some m3.1, none, none⟩
        | some m4 =>
          match tokenW 19 m4.2 with
          | none => ⟨some m2.1, some m3.1, some m4.1, none⟩
          | some m5 => ⟨some m2.1, some m3.1, some m4.1, some m5.1⟩

def applySearch (p : EnzParse) (e : EnzymeInfo) : EnzymeInfo :=
  { e with
    szSearchEnzymeName := p.name.getD e.szSearchEnzymeName
    iSearchEnzymeOffSet := p.off.getD e.iSearchEnzymeOffSet
    szSearchEnzymeBreakAA := p.brk.getD e.szSearchEnzymeBreakAA
    szSearchEnzymeNoBreakAA := p.nobrk.getD e.szSearchEnzymeNoBreakAA }

def applySearch2 (p : EnzParse) (e : EnzymeInfo) : EnzymeInfo :=
  { e with
    szSearchEnzyme2Name := p.name.getD e.szSearchEnzyme2Name
    iSearchEnzyme2OffSet := p.off.getD e.iSearchEnzyme2OffSet
    szSearchEnzyme2BreakAA := p.brk.getD e.szSearchEnzyme2BreakAA
    szSearchEnzyme2NoBreakAA := p.nobrk.getD e.szSearchEnzyme2NoBreakAA }

def applySample (p : EnzParse) (e : EnzymeInfo) : EnzymeInfo :=
  { e with
    szSampleEnzymeName := p.name.getD e.szSampleEnzymeName
    iSampleEnzymeOffSet := p.off.getD e.iSampleEnzymeOffSet
    szSampleEnzymeBreakAA := p.brk.getD e.szSampleEnzymeBreakAA
    szSampleEnzymeNoBreakAA := p.nobrk.getD e.szSampleEnzymeNoBreakAA }

/-- The state of the enzyme-table loop: the sticky `iCurrentEnzymeNumber`
    (uninitialised at entry) and the `EnzymeInfo` being filled. -/
structure EnzState where
  cur : Int
  info : EnzymeInfo
deriving DecidableEq

/-- One iteration of the enzyme-table loop: `sscanf("%d.")` into the
    sticky current number, then one conditional slot fill per configured
    enzyme number. -/
def enzStep (n1 n2 ns : Int) (es : EnzState) (cs : List Char) : EnzState :=
  let cur := match readIntTok cs with
    | some p => p.1
    | none => es.cur
  let p := parseEnzymeLine cs
  let info := es.info
  let info := if cur = n1 then applySearch p info else info
  let info := if cur = n2 then applySearch2 p info else info
  let info := if cur = ns then applySample p info else info
  { cur := cur, info := info }

def enzFold (n1 n2 ns : Int) (es : EnzState) : List String → EnzState
  | [] => es
  | ln :: rest => enzFold n1 n2 ns (enzStep n1 n2 ns es ln.data) rest

/-- The fatal-error outcomes of `LoadParameters`; each corresponds to a
    `logerr` + `exit(1)` site. -/
inductive LoadError
  | badVersion
  | outdated
  | missingSearchEnzyme (n : Int)
  | missingSearchEnzyme2 (n : Int)
  | missingSampleEnzyme (n : Int)
deriving DecidableEq

/-- Every fatal path in `LoadParameters` calls `exit(1)`. -/
def LoadError.exitCode : LoadError → Nat
  | .badVersion => 1
  | .outdated => 1
  | .missingSearchEnzyme _ => 1
  | .missingSearchEnzyme2 _ => 1
  | .missingSampleEnzyme _ => 1

/-- The initial `LoadSt` for a call of `LoadParameters`: the manager's
    current parameter map, the declared initial values of the enzyme
    locals, and arbitrary contents for the uninitialised sticky locals. -/
def initLoadSt (params0 : List (String × PVal)) (scr : Scratch) : LoadSt :=
  { params := params0, warnings := [], scr := scr
    iSearchEnzymeNumber := 1, iSearchEnzyme2Number := 0, iSampleEnzymeNumber := 1
    iAllowedMissedCleavages := 2, bCurrentParamsFile := false }

/-- `LoadParameters` on an already-opened file (`lines`): version scan,
    key/value parse up to `[COMET_ENZYME_INFO]`, enzyme-table scan, then
    the outdated-file and missing-enzyme checks in source order.
    `g` is the uninitialised initial value of `iCurrentEnzymeNumber`. -/
def loadParameters (validVer : String → Bool) (g : Int) (st0 : LoadSt)
    (lines : List String) : Except LoadError LoadSt :=
  match versionScanAux validVer "unknown" lines with
  | none => .error .badVersion
  | some verStr =>
    let st := st0.setP "# comet_version" (.s verStr)
    let r := kvFold st lines
    let st1 := r.1
    let es := enzFold st1.iSearchEnzymeNumber st1.iSearchEnzyme2Number
      st1.iSampleEnzymeNumber ⟨g, enzymeInfoDefault⟩ r.2
    if st1.bCurrentParamsFile = false then .error .outdated
    else if es.info.szSearchEnzymeName = "-" then
      .error (.missingSearchEnzyme st1.iSearchEnzymeNumber)
    else if es.info.szSearchEnzyme2Name = "-" then
      .error (.missingSearchEnzyme2 st1.iSearchEnzyme2Number)
    else if es.info.szSampleEnzymeName = "-" then
      .error (.missingSampleEnzyme st1.iSampleEnzymeNumber)
    else .ok (st1.setP "[COMET_ENZYME_INFO]"
      (.ez { es.info with iAllowedMissedCleavage := st1.iAllowedMissedCleavages }))

/-! ### `ParseCmdLine`: input-file arguments and scan specifiers -/

/-- The `iAnalysisType` constants used by `ParseCmdLine` (their numeric
    values live in CometData.h, outside this excerpt; only their
    distinctness is relevant).  `zero` is the initial assignment
    `pInputFile->iAnalysisType = 0`. -/
inductive AnalysisType
  | zero
  | specificScan
  | specificScanRange
  | entireFile
deriving DecidableEq

structure InputFileInfo where
  szFileName : String
  iAnalysisType : AnalysisType
  iFirstScan : Int
  iLastScan : Int
deriving DecidableEq

/-- A fresh `new InputFileInfo()` is value-initialised (the class source
    is outside this excerpt; zero fields are the C++ value-init default,
    and the type constant starts as the explicit assignment `0`). -/
def inputFileInfoInit : InputFileInfo :=
  { szFileName := "", iAnalysisType := .zero, iFirstScan := 0, iLastScan := 0 }

/-- The filename loop of `ParseCmdLine`: scan for the first `:` that is
    not followed by `\` or `/`; a trailing `:` (nothing after it) does
    not stop the scan.  Returns the filename part and the rest starting
    at the colon. -/
def splitAtScanColon : List Char → List Char × List Char
  | [] => ([], [])
  | c :: rest =>
    if c = ':' then
      match rest with
      | [] => ([c], [])
      | d :: _ =>
        if d = '\\' || d = '/' then
          let r := splitAtScanColon rest
          (c :: r.1, r.2)
        else ([], c :: rest)
    else
      let r := splitAtScanColon rest
      (c :: r.1, r.2)

def isColonOrNl (c : Char) : Bool := c = ':' || c = '\n'

/-- `strtok(cmd+i, ":\n")`: the first token after the filename. -/
def firstScanTok (l : List Char) : Option (List Char) :=
  let l1 := l.dropWhile isColonOrNl
  if l1.isEmpty then none else some (l1.takeWhile (fun c => !(isColonOrNl c)))

def isDashOrNl (c : Char) : Bool := c = '-' || c = '\n'
def isPlusOrNl (c : Char) : Bool := c = '+' || c = '\n'

/-- `atoi` on a `List Char`. -/
def atoiL (l : List Char) : Int := atoiM (String.mk l)

/-- `ParseCmdLine(cmd, pInputFile, pSearchMgr)`: `fe` is whether `fopen`
    succeeds on a filename (`ValidateInputFile`), `scanRangeOpt` is what
    `GetParamValue("scan_range")` yields; `none` models `return false`. -/
def parseCmdLineFn (fe : String → Bool) (scanRangeOpt : Option (Int × Int))
    (cmd : String) : Option InputFileInfo :=
  let sp := splitAtScanColon cmd.data
  let fname := String.mk sp.1
  if fe fname = false then none
  else
    let info := { inputFileInfoInit with szFileName := fname }
    match firstScanTok sp.2 with
    | none =>
      let r := scanRangeOpt.getD (0, 0)
      if r.1 = 0 && r.2 = 0 then some { info with iAnalysisType := .entireFile }
      else some { info with iAnalysisType := .specificScanRange,
                            iFirstScan := r.1, iLastScan := r.2 }
    | some scan =>
      if scan.any (fun c => c = '-') then
        let toks := splitTokens isDashOrNl scan
        let info := { info with iAnalysisType := .specificScanRange }
        let info := match toks with
          | [] => info
          | t1 :: rest =>
            let info := { info with iFirstScan := atoiL t1 }
            match rest with
            | [] => info
            | t2 :: _ => { info with iLastScan := atoiL t2 }
        some info
      else if scan.any (fun c => c = '+') then
        let toks := splitTokens isPlusOrNl scan
        let info := { info with iAnalysisType := .specificScanRange }
        let info := match toks with
          | [] => info
          | t1 :: rest =>
            let info := { info with iFirstScan := atoiL t1 }
            match rest with
            | [] => info
            | t2 :: _ => { info with iLastScan := info.iFirstScan + atoiL t2 }
        some info
      else
        let n := atoiL scan
        some { info with iAnalysisType := .specificScan,
                         iFirstScan := n, iLastScan := n }

/-! ### `SetOptions`, `ProcessCmdLine` and `main` -/

/-- The process environment `main` runs in: which files open and their
    contents, whether `comet.params.new` is writable, what `DoSearch`
    returns, the manager's version check and initial parameter map, and
    the uninitialised stack memory the code can read. -/
structure Env where
  fileLines : String → Option (List String)
  writableNew : Bool
  doSearch : Bool
  validVer : String → Bool
  initParams : List (String × PVal)
  scr0 : Scratch
  gEnz : Int
  uninitScanRange : Int × Int
  uninitTok : String

/-- The mutable state threaded through `ProcessCmdLine`. -/
structure CmdSt where
  params : List (String × PVal)
  paramsFile : String
  bPrintParams : Bool
  outputBaseName : String
deriving DecidableEq

def CmdSt.setP (st : CmdSt) (k : String) (v : PVal) : CmdSt :=
  { st with params := setAssoc st.params k v }

def lookupScanRange (params : List (String × PVal)) : Option (Int × Int) :=
  match List.lookup "scan_range" params with
  | some (.ir a b) => some (a, b)
  | _ => none

/-- `SetOptions(arg, ...)`.  For `-F`/`-L`/`-B`, `sscanf(arg+2, "%511s")`
    returns EOF (not 0) when nothing follows, so the `Ignored` message is
    dead code and the uninitialised `szTmp` (`env.uninitTok`) is consumed
    instead; for `-D`/`-P`/`-N` the `strlen == 0` test works as intended.
    When `GetParamValue("scan_range")` fails, the uninitialised local
    `IntRange` (`env.uninitScanRange`) is used. -/
def setOptionsFn (env : Env) (st : CmdSt) (arg : String) : CmdSt :=
  match arg.data with
  | _ :: c :: rest =>
    if c = 'D' then
      let t := rest.take 511
      if t.isEmpty then st else st.setP "database_name" (.s (String.mk t))
    else if c = 'P' then
      let t := rest.take 511
      if t.isEmpty then st else { st with paramsFile := String.mk t }
    else if c = 'N' then
      let t := rest.take 511
      if t.isEmpty then st else { st with outputBaseName := String.mk t }
    else if c = 'F' then
      let t := match tokenW 511 rest with
        | some p => p.1
        | none => env.uninitTok
      let r := (lookupScanRange st.params).getD env.uninitScanRange
      st.setP "scan_range" (.ir (atoiM t) r.2)
    else if c = 'L' then
      let t := match tokenW 511 rest with
        | some p => p.1
        | none => env.uninitTok
      let r := (lookupScanRange st.params).getD env.uninitScanRange
      st.setP "scan_range" (.ir r.1 (atoiM t))
    else if c = 'B' then
      let t := match tokenW 511 rest with
        | some p => p.1
        | none => env.uninitTok
      st.setP "spectrum_batch_size" (.i (atoiM t))
    else if c = 'p' then { st with bPrintParams := true }
    else if c = 'i' then st.setP "create_index" (.i 1)
    else st
  | _ => st

def isDashArg (a : String) : Bool :=
  match a.data with
  | c :: _ => c = '-'
  | [] => false

/-- The first pass over `argv`: only the `-` options are applied. -/
def optionsPass (env : Env) (st : CmdSt) : List String → CmdSt
  | [] => st
  | a :: rest =>
    optionsPass env (if isDashArg a then setOptionsFn env st a else st) rest

/-- The second pass: options again, and every non-option argument is
    parsed as an input file (`exit(1)` when `ParseCmdLine` fails). -/
def inputPass (env : Env) (st : CmdSt) (acc : List InputFileInfo) :
    List String → Except Nat (CmdSt × List InputFileInfo)
  | [] => .ok (st, acc)
  | a :: rest =>
    if isDashArg a then inputPass env (setOptionsFn env st a) acc rest
    else
      match parseCmdLineFn (fun f => (env.fileLines f).isSome)
          (lookupScanRange st.params) a with
      | none => .error 1
      | some info => inputPass env st (acc ++ [info]) rest

def initCmdSt (env : Env) : CmdSt :=
  { params := env.initParams, paramsFile := "comet.params"
    bPrintParams := false, outputBaseName := "" }

/-- `ProcessCmdLine(argc, argv, ...)` with `args = argv[1..]`:
    options pass, `-p` template printing (`exit(0)` on success, `exit(1)`
    if `comet.params.new` cannot be written), `LoadParameters` (`exit(1)`
    when the file does not open or the loader rejects it), then the
    second pass collecting input files. -/
def processCmdLine (env : Env) (args : List String) :
    Except Nat (CmdSt × List InputFileInfo) :=
  if args.isEmpty then .error 1
  else
    let st1 := optionsPass env (initCmdSt env) args
    if st1.bPrintParams then
      if env.writableNew then .error 0 else .error 1
    else
      match env.fileLines st1.paramsFile with
      | none => .error 1
      | some lines =>
        match loadParameters env.validVer env.gEnz
            (initLoadSt st1.params env.scr0) lines with
        | .error e => .error e.exitCode
        | .ok lst => inputPass env { st1 with params := lst.params } [] args

/-- `main(argc, argv)` as an exit code: `Usage` exits 1 when no arguments
    are given; any `exit` inside `ProcessCmdLine` is final; otherwise the
    `DoSearch` result decides between 0 and 1. -/
def mainExit (env : Env) (args : List String) : Nat :=
  if args.isEmpty then 1
  else
    match processCmdLine env args with
    | .error n => n
    | .ok _ => if env.doSearch then 0 else 1

/-! ### The `-p` template written by `PrintParams` -/

/-- Modelled from the spec: the running version string `g_sCometVersion`
    (`comet_version` in Common.h, outside this excerpt).  The spec's
    version marker has the shape `# comet_version <ver> <rev1> <rev2>`;
    a concrete representative is fixed, together with
    `isValidCometVersionModel` below accepting exactly its version
    token. -/
def cometVersionString : String := "2025.01 rev. 0"

/-- Modelled from the spec: `ICometSearchManager::IsValidCometVersion`
    (CometSearchManager.cpp, outside this excerpt) accepts a recognized
    version; the program's own version is recognized. -/
def isValidCometVersionModel (v : String) : Bool := v == "2025.01"

/-- The exact contents of `comet.params.new` as written by `PrintParams`
    (one entry per output line).  The `%d` format arguments
    (`MAX_THREADS`, `MAX_PEPTIDE_LEN`, `MAX_FRAGMENT_CHARGE`,
    `MAX_PRECURSOR_CHARGE`, defined in CometDataInternal.h outside this
    excerpt) occur only inside `#` comments, which the loader strips
    before parsing; representative values are substituted. -/
def templateLines : List String :=
  ["# comet_version " ++ cometVersionString,
    "# Comet MS/MS search engine parameters file.",
    "# Everything following the '#' symbol is treated as a comment.",
    "",
    "database_name = /some/path/db.fasta",
    "decoy_search = 0                       # 0=no (default), 1=internal decoy concatenated, 2=internal decoy separate",
    "",
    "num_threads = 0                        # 0=poll CPU to set num threads; else specify num threads directly (max 128)",
    "",
    "#",
    "# masses",
    "#",
    "peptide_mass_tolerance = 20.0          # upper bound of the precursor mass tolerance",
    "peptide_mass_tolerance_lower = -20.0   # lower bound of the precursor mass tolerance",
    "peptide_mass_units = 2                 # 0=amu, 1=mmu, 2=ppm",
    "mass_type_parent = 1                   # 0=average masses, 1=monoisotopic masses",
    "mass_type_fragment = 1                 # 0=average masses, 1=monoisotopic masses",
    "precursor_tolerance_type = 1           # 0=MH+ (default), 1=precursor m/z; only valid for amu/mmu tolerances",
    "isotope_error = 3                      # 0=off, 1=0/1 (C13 error), 2=0/1/2, 3=0/1/2/3, 4=-1/0/1/2/3, 5=-1/0/1",
    "",
    "#",
    "# search enzyme",
    "#",
    "search_enzyme_number = 1               # choose from list at end of this params file",
    "search_enzyme2_number = 0              # second enzyme; set to 0 if no second enzyme",
    "num_enzyme_termini = 2                 # 1 (semi-digested), 2 (fully digested, default), 8 C-term unspecific , 9 N-term unspecific",
    "allowed_missed_cleavage = 2            # maximum value is 5; for enzyme search",
    "",
    "#",
    "# Up to 9 variable modifications are supported",
    "# format:  <mass> <residues> <0=variable/else binary> <max_mods_per_peptide> <term_distance> <n/c-term> <required> <neutral_loss>",
    "#     e.g. 79.966331 STY 0 3 -1 0 0 97.976896",
    "#",
    "variable_mod01 = 15.9949 M 0 3 -1 0 0 0.0",
    "variable_mod02 = 0.0 X 0 3 -1 0 0 0.0",
    "variable_mod03 = 0.0 X 0 3 -1 0 0 0.0",
    "variable_mod04 = 0.0 X 0 3 -1 0 0 0.0",
    "variable_mod05 = 0.0 X 0 3 -1 0 0 0.0",
    "variable_mod06 = 0.0 X 0 3 -1 0 0 0.0",
    "variable_mod07 = 0.0 X 0 3 -1 0 0 0.0",
    "variable_mod08 = 0.0 X 0 3 -1 0 0 0.0",
    "variable_mod09 = 0.0 X 0 3 -1 0 0 0.0",
    "max_variable_mods_in_peptide = 5",
    "require_variable_mod = 0",
    "scale_fragmentNL = 0                   # 0=no, 1=yes; fragment neutral loss mass is multipled by number of modified residues in the fragment",
    "",
    "#",
    "# fragment ions",
    "#",
    "# ion trap ms/ms:  1.0005 tolerance, 0.4 offset (mono masses), theoretical_fragment_ions = 1",
    "# high res ms/ms:    0.02 tolerance, 0.0 offset (mono masses), theoretical_fragment_ions = 0, spectrum_batch_size = 15000",
    "#",
    "fragment_bin_tol = 0.02                # binning to use on fragment ions",
    "fragment_bin_offset = 0.0              # offset position to start the binning (0.0 to 1.0)",
    "theoretical_fragment_ions = 0          # 0=use flanking peaks, 1=M peak only",
    "use_A_ions = 0",
    "use_B_ions = 1",
    "use_C_ions = 0",
    "use_X_ions = 0",
    "use_Y_ions = 1",
    "use_Z_ions = 0",
    "use_Z1_ions = 0",
    "use_NL_ions = 0                        # 0=no, 1=yes to consider NH3/H2O neutral loss peaks",
    "",
    "#",
    "# output",
    "#",
    "output_sqtfile = 0                     # 0=no, 1=yes  write sqt file",
    "output_txtfile = 0                     # 0=no, 1=yes  write tab-delimited txt file",
    "output_pepxmlfile = 1                  # 0=no, 1=yes  write pepXML file",
    "output_mzidentmlfile = 0               # 0=no, 1=yes  write mzIdentML file",
    "output_percolatorfile = 0              # 0=no, 1=yes  write Percolator pin file",
    "print_expect_score = 1                 # 0=no, 1=yes to replace Sp with expect in out & sqt",
    "num_output_lines = 5                   # num peptide results to show",
    "",
    "sample_enzyme_number = 1               # Sample enzyme which is possibly different than the one applied to the search.",
    "                                       # Used to calculate NTT & NMC in pepXML output (default=1 for trypsin).",
    "",
    "#",
    "# mzXML parameters",
    "#",
    "scan_range = 0 0                       # start and end scan range to search; either entry can be set independently",
    "precursor_charge = 0 0                 # precursor charge range to analyze; does not override any existing charge; 0 as 1st entry ignores parameter",
    "override_charge = 0                    # 0=no, 1=override precursor charge states, 2=ignore precursor charges outside precursor_charge range, 3=see online",
    "ms_level = 2                           # MS level to analyze, valid are levels 2 (default) or 3",
    "activation_method = ALL                # activation method; used if activation method set; allowed ALL, CID, ECD, ETD, ETD+SA, PQD, HCD, IRMPD, SID",
    "",
    "#",
    "# misc parameters",
    "#",
    "digest_mass_range = 600.0 5000.0       # MH+ peptide mass range to analyze",
    "peptide_length_range = 5 50            # minimum and maximum peptide length to analyze (default min 1 to allowed max 51)",
    "num_results = 100                      # number of search hits to store internally",
    "max_duplicate_proteins = 20            # maximum number of additional duplicate protein names to report for each peptide ID; -1 reports all duplicates",
    "max_fragment_charge = 3                # set maximum fragment charge state to analyze (allowed max 5)",
    "max_precursor_charge = 6               # set maximum precursor charge state to analyze (allowed max 9)",
    "clip_nterm_methionine = 0              # 0=leave protein sequences as-is; 1=also consider sequence w/o N-term methionine",
    "spectrum_batch_size = 15000            # max. # of spectra to search at a time; 0 to search the entire scan range in one loop",
    "decoy_prefix = DECOY_                  # decoy entries are denoted by this string which is pre-pended to each protein accession",
    "equal_I_and_L = 1                      # 0=treat I and L as different; 1=treat I and L as same",
    "output_suffix =                        # add a suffix to output base names i.e. suffix \"-C\" generates base-C.pep.xml from base.mzXML input",
    "mass_offsets =                         # one or more mass offsets to search (values substracted from deconvoluted precursor mass)",
    "precursor_NL_ions =                    # one or more precursor neutral loss masses, will be added to xcorr analysis",
    "",
    "#",
    "# spectral processing",
    "#",
    "minimum_peaks = 10                     # required minimum number of peaks in spectrum to search (default 10)",
    "minimum_intensity = 0                  # minimum intensity value to read in",
    "remove_precursor_peak = 0              # 0=no, 1=yes, 2=all charge reduced precursor peaks (for ETD), 3=phosphate neutral loss peaks",
    "remove_precursor_tolerance = 1.5       # +- Da tolerance for precursor removal",
    "clear_mz_range = 0.0 0.0               # for iTRAQ/TMT type data; will clear out all peaks in the specified m/z range",
    "",
    "#",
    "# additional modifications",
    "#",
    "",
    "add_Cterm_peptide = 0.0",
    "add_Nterm_peptide = 0.0",
    "add_Cterm_protein = 0.0",
    "add_Nterm_protein = 0.0",
    "",
    "add_G_glycine = 0.0000                 # added to G - avg.  57.0513, mono.  57.02146",
    "add_A_alanine = 0.0000                 # added to A - avg.  71.0779, mono.  71.03711",
    "add_S_serine = 0.0000                  # added to S - avg.  87.0773, mono.  87.03203",
    "add_P_proline = 0.0000                 # added to P - avg.  97.1152, mono.  97.05276",
    "add_V_valine = 0.0000                  # added to V - avg.  99.1311, mono.  99.06841",
    "add_T_threonine = 0.0000               # added to T - avg. 101.1038, mono. 101.04768",
    "add_C_cysteine = 57.021464             # added to C - avg. 103.1429, mono. 103.00918",
    "add_L_leucine = 0.0000                 # added to L - avg. 113.1576, mono. 113.08406",
    "add_I_isoleucine = 0.0000              # added to I - avg. 113.1576, mono. 113.08406",
    "add_N_asparagine = 0.0000              # added to N - avg. 114.1026, mono. 114.04293",
    "add_D_aspartic_acid = 0.0000           # added to D - avg. 115.0874, mono. 115.02694",
    "add_Q_glutamine = 0.0000               # added to Q - avg. 128.1292, mono. 128.05858",
    "add_K_lysine = 0.0000                  # added to K - avg. 128.1723, mono. 128.09496",
    "add_E_glutamic_acid = 0.0000           # added to E - avg. 129.1140, mono. 129.04259",
    "add_M_methionine = 0.0000              # added to M - avg. 131.1961, mono. 131.04048",
    "add_H_histidine = 0.0000               # added to H - avg. 137.1393, mono. 137.05891",
    "add_F_phenylalanine = 0.0000           # added to F - avg. 147.1739, mono. 147.06841",
    "add_U_selenocysteine = 0.0000          # added to U - avg. 150.0379, mono. 150.95363",
    "add_R_arginine = 0.0000                # added to R - avg. 156.1857, mono. 156.10111",
    "add_Y_tyrosine = 0.0000                # added to Y - avg. 163.0633, mono. 163.06333",
    "add_W_tryptophan = 0.0000              # added to W - avg. 186.0793, mono. 186.07931",
    "add_O_pyrrolysine = 0.0000             # added to O - avg. 237.2982, mono  237.14773",
    "add_B_user_amino_acid = 0.0000         # added to B - avg.   0.0000, mono.   0.00000",
    "add_J_user_amino_acid = 0.0000         # added to J - avg.   0.0000, mono.   0.00000",
    "add_X_user_amino_acid = 0.0000         # added to X - avg.   0.0000, mono.   0.00000",
    "add_Z_user_amino_acid = 0.0000         # added to Z - avg.   0.0000, mono.   0.00000",
    "",
    "#",
    "# COMET_ENZYME_INFO _must_ be at the end of this parameters file",
    "#",
    "[COMET_ENZYME_INFO]",
    "0.  Cut_everywhere         0      -           -",
    "1.  Trypsin                1      KR          P",
    "2.  Trypsin/P              1      KR          -",
    "3.  Lys_C                  1      K           P",
    "4.  Lys_N                  0      K           -",
    "5.  Arg_C                  1      R           P",
    "6.  Asp_N                  0      D           -",
    "7.  CNBr                   1      M           -",
    "8.  Glu_C                  1      DE          P",
    "9.  PepsinA                1      FL          P",
    "10. Chymotrypsin           1      FWYL        P",
    "11. No_cut                 1      @           @",
    "" ]

/-! ### The desktop dialog: `ConfigureMassSettings` (RunSearchDlg.cs) -/

/-- The `Settings.Default` properties read by `ConfigureMassSettings`. -/
structure MassSettings where
  precursorMassTolerance : Dbl
  precursorMassUnit : Int
  precursorMassType : Int
  precursorToleranceType : Int
  precursorIsotopeError : Int
  fragmentBinSize : Dbl
  fragmentBinOffset : Dbl
  fragmentMassType : Int
  useSparseMatrix : Bool
  useAIons : Bool
  useBIons : Bool
  useCIons : Bool
  useXIons : Bool
  useYIons : Bool
  useZIons : Bool
  theoreticalFragmentIons : Bool
  useNLIons : Bool
deriving DecidableEq

/-- The C# `cond ? 1 : 0` conversions. -/
def b2i (b : Bool) : Int := if b then 1 else 0

/-- `Int32.ToString(CultureInfo.InvariantCulture)`: plain decimal. -/
def renderInt (n : Int) : String := toString n

/-- A typed value passed to the wrapper's `SetParam` by the dialog. -/
inductive CVal
  | i (n : Int)
  | d (q : Dbl)
deriving DecidableEq

/-- The invariant-culture rendering of a typed value; the `double`
    rendering (framework behaviour, outside this repository) is a
    parameter `rho`. -/
def renderCVal (rho : Dbl → String) : CVal → String
  | .i n => renderInt n
  | .d q => rho q

/-- The sequence of `SetParam(name, stringArg, typedValue)` calls issued
    by `ConfigureMassSettings`, in source order (the wrapper's success
    flag is not modelled: the claims concern the arguments passed).
    The `use_Y_ions` entry reproduces the source exactly: its string
    argument is rendered from `useXIons` while its typed value comes
    from `useYIons`. -/
def configureMassSettings (rho : Dbl → String) (s : MassSettings) :
    List (String × String × CVal) :=
  [ ("peptide_mass_tolerance", rho s.precursorMassTolerance, CVal.d s.precursorMassTolerance),
    ("peptide_mass_units", renderInt s.precursorMassUnit, CVal.i s.precursorMassUnit),
    ("mass_type_parent", renderInt s.precursorMassType, CVal.i s.precursorMassType),
    ("precursor_tolerance_type", renderInt s.precursorToleranceType, CVal.i s.precursorToleranceType),
    ("isotope_error", renderInt s.precursorIsotopeError, CVal.i s.precursorIsotopeError),
    ("fragment_bin_tol", rho s.fragmentBinSize, CVal.d s.fragmentBinSize),
    ("fragment_bin_offset", rho s.fragmentBinOffset, CVal.d s.fragmentBinOffset),
    ("mass_type_fragment", renderInt s.fragmentMassType, CVal.i s.fragmentMassType),
    ("use_sparse_matrix", renderInt (b2i s.useSparseMatrix), CVal.i (b2i s.useSparseMatrix)),
    ("use_A_ions", renderInt (b2i s.useAIons), CVal.i (b2i s.useAIons)),
    ("use_B_ions", renderInt (b2i s.useBIons), CVal.i (b2i s.useBIons)),
    ("use_C_ions", renderInt (b2i s.useCIons), CVal.i (b2i s.useCIons)),
    ("use_X_ions", renderInt (b2i s.useXIons), CVal.i (b2i s.useXIons)),
    ("use_Y_ions", renderInt (b2i s.useXIons), CVal.i (b2i s.useYIons)),
    ("use_Z_ions", renderInt (b2i s.useZIons), CVal.i (b2i s.useZIons)),
    ("theoretical_fragment_ions", renderInt (b2i s.theoreticalFragmentIons), CVal.i (b2i s.theoreticalFragmentIons)),
    ("use_NL_ions", renderInt (b2i s.useNLIons), CVal.i (b2i s.useNLIons)) ]

/-! ### Auxiliary definitions used by the theorems below -/

instance {e a : Type} [DecidableEq e] [DecidableEq a] : DecidableEq (Except e a) := fun x y =>
  match x, y with
  | .error u, .error v =>
    if h : u = v then isTrue (congrArg Except.error h)
    else isFalse (fun hc => h (Except.error.inj hc))
  | .ok u, .ok v =>
    if h : u = v then isTrue (congrArg Except.ok h)
    else isFalse (fun hc => h (Except.ok.inj hc))
  | .error _, .ok _ => isFalse (fun hc => Except.noConfusion hc)
  | .ok _, .error _ => isFalse (fun hc => Except.noConfusion hc)

/-- A representative (all-zero) content for the uninitialised locals of
    `LoadParameters`. -/
def zeroVarMods : VarMods := VarMods.mk (Dbl.mk 0 0) "" 0 0 0 0 0 0 (Dbl.mk 0 0)

def zeroScratch : Scratch := Scratch.mk 0 (Dbl.mk 0 0) 0 zeroVarMods "" "" (Dbl.mk 0 0)

/-- The list the claim about `mass_offsets` describes (this definition
    follows the claim's words, for comparison with the loader): the
    whitespace-separated tokens of the trimmed value that parse as
    doubles, kept when nonnegative, sorted in nondecreasing order. -/
def specMassOffsets (v : List Char) : List Dbl :=
  sortDbl (((splitTokens isTabOrSpace (trimWS v)).filterMap
    (fun tk => (readDblTok tk).map Prod.fst)).filter
      (fun d => decide (Dbl.le dblZero d)))

/-- A key/value line whose key-name token is present and is not
    `output_percolatorfile` (lines without `=` qualify trivially). -/
def kvNameOk (ln : String) : Bool :=
  match splitEq (stripComment ln.data) with
  | none => true
  | some nv =>
    match tokenW 127 nv.1 with
    | some p => p.1 != "output_percolatorfile"
    | none => false

/-- A line that dispatches to the `output_percolatorfile` branch. -/
def isPercoLine (ln : String) : Bool :=
  match splitEq (stripComment ln.data) with
  | none => false
  | some nv =>
    match tokenW 127 nv.1 with
    | some p => p.1 == "output_percolatorfile"
    | none => false

/-- Whether an argument is `-p`-shaped (sets `bPrintParams`). -/
def hasPElem (a : String) : Bool :=
  match a.data with
  | c :: d :: _ => c = '-' && d = 'p'
  | _ => false

def hasPrintFlag (args : List String) : Bool := args.any hasPElem

/-- The state after the first option pass of `ProcessCmdLine`. -/
def pass1St (env : Env) (args : List String) : CmdSt :=
  optionsPass env (initCmdSt env) args

/-- The argument vector `comet -F<fs> <inputName>`. -/
def c6Args (fs : List Char) (inputName : String) : List String :=
  [String.mk ('-' :: 'F' :: fs), inputName]

/-- A nonempty all-digit string. -/
def isDigitStr (s : String) : Bool :=
  !s.data.isEmpty && s.data.all isDigitCh

/-- A minimal valid params file used by concrete witnesses. -/
def miniParamsFile : List String :=
  [ "# comet_version 2025.01 rev. 0",
    "scan_range = 100 2000",
    "output_percolatorfile = 0",
    "[COMET_ENZYME_INFO]",
    "0.  Cut_everywhere  0  -  -",
    "1.  Trypsin  1  KR  P" ]

/-- A params file whose enzyme table has no entry for the configured
    `search_enzyme_number` (= 3). -/
def c7File : List String :=
  [ "# comet_version 2025.01 rev. 0",
    "output_percolatorfile = 0",
    "search_enzyme_number = 3",
    "[COMET_ENZYME_INFO]",
    "0.  Cut_everywhere  0  -  -",
    "1.  Trypsin  1  KR  P" ]

/-- A params file with no version marker line. -/
def c2File : List String :=
  [ "# comet_version 2019.01 rev. 5",
    "use_B_ions = 1" ]

/-- A params file (version OK) with no `output_percolatorfile` entry. -/
def c9FileA : List String :=
  [ "# comet_version 2025.01 rev. 0",
    "use_B_ions = 1" ]

/-- A params file (version OK) containing `output_percolatorfile`. -/
def c9FileB : List String :=
  [ "# comet_version 2025.01 rev. 0",
    "output_percolatorfile = 1" ]

/-- A concrete process environment for witnesses. -/
def envW : Env :=
  { fileLines := fun s =>
      if s = "comet.params" then some miniParamsFile
      else if s = "in.mzXML" then some [] else none
    writableNew := true
    doSearch := true
    validVer := isValidCometVersionModel
    initParams := []
    scr0 := zeroScratch
    gEnz := 0
    uninitScanRange := (0, 0)
    uninitTok := "" }

/-- The loader state produced by `miniParamsFile` after the `-F5` first
    pass of `c6Args` (used to discharge the hypotheses of the `-F`
    theorem at a concrete input). -/
def c6Lst : LoadSt :=
  match loadParameters envW.validVer envW.gEnz
      (initLoadSt (pass1St envW (c6Args ("5").data "in.mzXML")).params envW.scr0)
      miniParamsFile with
  | .ok st => st
  | .error _ => initLoadSt [] zeroScratch

/-- The dialog settings exhibiting the `use_Y_ions` slip: X ions off,
    Y ions on. -/
def c8Settings : MassSettings :=
  { precursorMassTolerance := Dbl.mk 0 0, precursorMassUnit := 0
    precursorMassType := 0, precursorToleranceType := 0
    precursorIsotopeError := 0, fragmentBinSize := Dbl.mk 0 0
    fragmentBinOffset := Dbl.mk 0 0, fragmentMassType := 0
    useSparseMatrix := false, useAIons := false, useBIons := false
    useCIons := false, useXIons := false, useYIons := true
    useZIons := false, theoreticalFragmentIons := false, useNLIons := false }

/-- A fixed double renderer for closed dialog instances. -/
def rho0 : Dbl → String := fun _ => ""

/-- The state `LoadParameters` produces from the `-p` template with
    all-zero uninitialised locals (an explicit literal; the round-trip
    theorem identifies it with the loader's output). -/
def c1State : LoadSt :=
  { params := [
      ("# comet_version", PVal.s "2025.01 rev. 0"),
      ("database_name", PVal.s "/some/path/db.fasta"),
      ("decoy_search", PVal.i (0)),
      ("num_threads", PVal.i (0)),
      ("peptide_mass_tolerance", PVal.d (Dbl.mk 200 1)),
      ("peptide_mass_tolerance_lower", PVal.d (Dbl.mk (-200) 1)),
      ("peptide_mass_units", PVal.i (2)),
      ("mass_type_parent", PVal.i (1)),
      ("mass_type_fragment", PVal.i (1)),
      ("precursor_tolerance_type", PVal.i (1)),
      ("isotope_error", PVal.i (3)),
      ("search_enzyme_number", PVal.i (1)),
      ("search_enzyme2_number", PVal.i (0)),
      ("num_enzyme_termini", PVal.i (2)),
      ("allowed_missed_cleavage", PVal.i (2)),
      ("variable_mod01", PVal.vm (VarMods.mk (Dbl.mk 159949 4) "M" (0) (3) 0 (-1) (0) (0) (Dbl.mk 0 1))),
      ("variable_mod02", PVal.vm (VarMods.mk (Dbl.mk 0 1) "X" (0) (3) 0 (-1) (0) (0) (Dbl.mk 0 1))),
      ("variable_mod03", PVal.vm (VarMods.mk (Dbl.mk 0 1) "X" (0) (3) 0 (-1) (0) (0) (Dbl.mk 0 1))),
      ("variable_mod04", PVal.vm (VarMods.mk (Dbl.mk 0 1) "X" (0) (3) 0 (-1) (0) (0) (Dbl.mk 0 1))),
      ("variable_mod05", PVal.vm (VarMods.mk (Dbl.mk 0 1) "X" (0) (3) 0 (-1) (0) (0) (Dbl.mk 0 1))),
      ("variable_mod06", PVal.vm (VarMods.mk (Dbl.mk 0 1) "X" (0) (3) 0 (-1) (0) (0) (Dbl.mk 0 1))),
      ("variable_mod07", PVal.vm (VarMods.mk (Dbl.mk 0 1) "X" (0) (3) 0 (-1) (0) (0) (Dbl.mk 0 1))),
      ("variable_mod08", PVal.vm (VarMods.mk (Dbl.mk 0 1) "X" (0) (3) 0 (-1) (0) (0) (Dbl.mk 0 1))),
      ("variable_mod09", PVal.vm (VarMods.mk (Dbl.mk 0 1) "X" (0) (3) 0 (-1) (0) (0) (Dbl.mk 0 1))),
      ("max_variable_mods_in_peptide", PVal.i (5)),
      ("require_variable_mod", PVal.s "0"),
      ("scale_fragmentNL", PVal.i (0)),
      ("fragment_bin_tol", PVal.d (Dbl.mk 2 2)),
      ("fragment_bin_offset", PVal.d (Dbl.mk 0 1)),
      ("theoretical_fragment_ions", PVal.i (0)),
      ("use_A_ions", PVal.i (0)),
      ("use_B_ions", PVal.i (1)),
      ("use_C_ions", PVal.i (0)),
      ("use_X_ions", PVal.i (0)),
      ("use_Y_ions", PVal.i (1)),
      ("use_Z_ions", PVal.i (0)),
      ("use_Z1_ions", PVal.i (0)),
      ("use_NL_ions", PVal.i (0)),
      ("output_sqtfile", PVal.i (0)),
      ("output_txtfile", PVal.i (0)),
      ("output_pepxmlfile", PVal.i (1)),
      ("output_mzidentmlfile", PVal.i (0)),
      ("output_percolatorfile", PVal.i (0)),
      ("print_expect_score", PVal.i (1)),
      ("num_output_lines", PVal.i (5)),
      ("sample_enzyme_number", PVal.i (1)),
      ("scan_range", PVal.ir (0) (0)),
      ("precursor_charge", PVal.ir (0) (0)),
      ("override_charge", PVal.i (0)),
      ("ms_level", PVal.i (2)),
      ("activation_method", PVal.s "ALL"),
      ("digest_mass_range", PVal.dr (Dbl.mk 6000 1) (Dbl.mk 50000 1)),
      ("peptide_length_range", PVal.ir (5) (50)),
      ("num_results", PVal.i (100)),
      ("max_duplicate_proteins", PVal.i (20)),
      ("max_fragment_charge", PVal.i (3)),
      ("max_precursor_charge", PVal.i (6)),
      ("clip_nterm_methionine", PVal.i (0)),
      ("spectrum_batch_size", PVal.i (15000)),
      ("decoy_prefix", PVal.s "DECOY_"),
      ("equal_I_and_L", PVal.i (1)),
      ("output_suffix", PVal.s ""),
      ("mass_offsets", PVal.dl []),
      ("precursor_NL_ions", PVal.dl []),
      ("minimum_peaks", PVal.i (10)),
      ("minimum_intensity", PVal.d (Dbl.mk 0 0)),
      ("remove_precursor_peak", PVal.i (0)),
      ("remove_precursor_tolerance", PVal.d (Dbl.mk 15 1)),
      ("clear_mz_range", PVal.dr (Dbl.mk 0 1) (Dbl.mk 0 1)),
      ("add_Cterm_peptide", PVal.d (Dbl.mk 0 1)),
      ("add_Nterm_peptide", PVal.d (Dbl.mk 0 1)),
      ("add_Cterm_protein", PVal.d (Dbl.mk 0 1)),
      ("add_Nterm_protein", PVal.d (Dbl.mk 0 1)),
      ("add_G_glycine", PVal.d (Dbl.mk 0 4)),
      ("add_A_alanine", PVal.d (Dbl.mk 0 4)),
      ("add_S_serine", PVal.d (Dbl.mk 0 4)),
      ("add_P_proline", PVal.d (Dbl.mk 0 4)),
      ("add_V_valine", PVal.d (Dbl.mk 0 4)),
      ("add_T_threonine", PVal.d (Dbl.mk 0 4)),
      ("add_C_cysteine", PVal.d (Dbl.mk 57021464 6)),
      ("add_L_leucine", PVal.d (Dbl.mk 0 4)),
      ("add_I_isoleucine", PVal.d (Dbl.mk 0 4)),
      ("add_N_asparagine", PVal.d (Dbl.mk 0 4)),
      ("add_D_aspartic_acid", PVal.d (Dbl.mk 0 4)),
      ("add_Q_glutamine", PVal.d (Dbl.mk 0 4)),
      ("add_K_lysine", PVal.d (Dbl.mk 0 4)),
      ("add_E_glutamic_acid", PVal.d (Dbl.mk 0 4)),
      ("add_M_methionine", PVal.d (Dbl.mk 0 4)),
      ("add_H_histidine", PVal.d (Dbl.mk 0 4)),
      ("add_F_phenylalanine", PVal.d (Dbl.mk 0 4)),
      ("add_U_selenocysteine", PVal.d (Dbl.mk 0 4)),
      ("add_R_arginine", PVal.d (Dbl.mk 0 4)),
      ("add_Y_tyrosine", PVal.d (Dbl.mk 0 4)),
      ("add_W_tryptophan", PVal.d (Dbl.mk 0 4)),
      ("add_O_pyrrolysine", PVal.d (Dbl.mk 0 4)),
      ("add_B_user_amino_acid", PVal.d (Dbl.mk 0 4)),
      ("add_J_user_amino_acid", PVal.d (Dbl.mk 0 4)),
      ("add_X_user_amino_acid", PVal.d (Dbl.mk 0 4)),
      ("add_Z_user_amino_acid", PVal.d (Dbl.mk 0 4)),
      ("[COMET_ENZYME_INFO]", PVal.ez (EnzymeInfo.mk "Trypsin" (1) "KR" "P" "Cut_everywhere" (0) "-" "-" "Trypsin" (1) "KR" "P" (2))) ],
    warnings := [],
    scr := Scratch.mk 0 (Dbl.mk 0 4) 0
      (VarMods.mk (Dbl.mk 0 1) "X" 0 3 0 (-1) 0 0 (Dbl.mk 0 1))
      "add_Z_user_amino_acid" "" (Dbl.mk 0 0),
    iSearchEnzymeNumber := 1, iSearchEnzyme2Number := 0, iSampleEnzymeNumber := 1,
    iAllowedMissedCleavages := 2, bCurrentParamsFile := true }

/-- The key/value phase of `c7File` (used by the concrete witness). -/
def c7Kv : LoadSt × List String :=
  kvFold ((initLoadSt [] zeroScratch).setP "# comet_version"
    (PVal.s "2025.01 rev. 0")) c7File

/-! ### Helper lemmas -/

theorem lookup_setAssoc_self (m : List (String × PVal)) (k : String) (v : PVal) :
    List.lookup k (setAssoc m k v) = some v := by
  induction m with
  | nil => simp [setAssoc, List.lookup]
  | cons p t ih =>
    by_cases h : p.1 = k
    · simp [setAssoc, h, List.lookup]
    · simp only [setAssoc, h, if_false, List.lookup]
      have : (k == p.1) = false := by
        simp [BEq.beq]
        exact fun hk => h hk.symm
      simp [this, ih]

theorem dropWhile_all_false (p : Char → Bool) (l : List Char)
    (h : ∀ c ∈ l, p c = false) : l.dropWhile p = l := by
  cases l with
  | nil => rfl
  | cons c t => simp [List.dropWhile, h c (by simp)]

theorem takeWhile_all_neg (p : Char → Bool) (l : List Char)
    (h : ∀ c ∈ l, p c = false) : l.takeWhile (fun c => !(p c)) = l := by
  induction l with
  | nil => rfl
  | cons c t ih =>
    simp [List.takeWhile, h c (by simp), ih (fun d hd => h d (by simp [hd]))]

theorem digit_ne (c : Char) (h : isDigitCh c = true) (d : Char)
    (hd : isDigitCh d = false) : decide (c = d) = false := by
  by_cases hc : c = d
  · rw [hc] at h; rw [h] at hd; cases hd
  · simp [hc]

theorem digit_not_spc (c : Char) (h : isDigitCh c = true) : isSpc c = false := by
  unfold isSpc
  rw [digit_ne c h ' ' (by decide), digit_ne c h '\t' (by decide),
    digit_ne c h '\n' (by decide), digit_ne c h '\r' (by decide),
    digit_ne c h '\x0b' (by decide), digit_ne c h '\x0c' (by decide)]
  rfl

theorem digit_not_colonNl (c : Char) (h : isDigitCh c = true) :
    isColonOrNl c = false := by
  unfold isColonOrNl
  rw [digit_ne c h ':' (by decide), digit_ne c h '\n' (by decide)]
  rfl

theorem digit_not_dashNl (c : Char) (h : isDigitCh c = true) :
    isDashOrNl c = false := by
  unfold isDashOrNl
  rw [digit_ne c h '-' (by decide), digit_ne c h '\n' (by decide)]
  rfl

theorem digit_not_plusNl (c : Char) (h : isDigitCh c = true) :
    isPlusOrNl c = false := by
  unfold isPlusOrNl
  rw [digit_ne c h '+' (by decide), digit_ne c h '\n' (by decide)]
  rfl

theorem isEmpty_false_of_ne {l : List Char} (h : l ≠ []) : l.isEmpty = false := by
  cases l with
  | nil => exact absurd rfl h
  | cons a t => rfl

theorem splitTokensAux_skip (delim : Char → Bool) (xs : List Char)
    (h : ∀ c ∈ xs, delim c = false) :
    ∀ acc rest, splitTokensAux delim acc (xs ++ rest)
      = splitTokensAux delim (xs.reverse ++ acc) rest := by
  induction xs with
  | nil => intro acc rest; rfl
  | cons c t ih =>
    intro acc rest
    have hc : delim c = false := h c (by simp)
    simp only [List.cons_append, splitTokensAux, hc, Bool.false_eq_true, if_false,
      List.append_eq]
    rw [ih (fun d hd => h d (by simp [hd])) (c :: acc) rest]
    congr 1
    simp [List.append_assoc]

theorem splitTokensAux_done (delim : Char → Bool) (acc : List Char)
    (hacc : acc ≠ []) : splitTokensAux delim acc [] = [acc.reverse] := by
  cases acc with
  | nil => exact absurd rfl hacc
  | cons a t => rfl

theorem splitTokens_single (delim : Char → Bool) (s : List Char)
    (hne : s ≠ []) (h : ∀ c ∈ s, delim c = false) :
    splitTokens delim s = [s] := by
  unfold splitTokens
  have h1 := splitTokensAux_skip delim s h [] []
  rw [List.append_nil] at h1
  rw [h1, List.append_nil, splitTokensAux_done delim s.reverse (by simpa using hne),
    List.reverse_reverse]

theorem splitTokens_two (delim : Char → Bool) (s t : List Char) (d : Char)
    (hd : delim d = true) (hs : s ≠ []) (hsall : ∀ c ∈ s, delim c = false)
    (ht : t ≠ []) (htall : ∀ c ∈ t, delim c = false) :
    splitTokens delim (s ++ d :: t) = [s, t] := by
  unfold splitTokens
  rw [splitTokensAux_skip delim s hsall [] (d :: t), List.append_nil]
  simp only [splitTokensAux, hd, if_true,
    isEmpty_false_of_ne (by simpa using hs : s.reverse ≠ []),
    Bool.false_eq_true, if_false, List.reverse_reverse]
  have h2 := splitTokensAux_skip delim t htall [] []
  rw [List.append_nil] at h2
  rw [h2, List.append_nil, splitTokensAux_done delim t.reverse (by simpa using ht),
    List.reverse_reverse]

/-! ### Theorems for the claims -/

/-- C8: the claim says every dialog `SetParam` call passes the
    invariant-culture rendering of the typed value derived from that
    parameter's own UI setting.  The code, however, renders the
    `use_Y_ions` string argument from the X-ions checkbox: with X ions
    off and Y ions on, the dialog passes string `"0"` with typed value
    `1`, while the rendering of the typed value is `"1"`.  The claim (and
    the spec's "performs the same mapping") is the evident intent — every
    neighbouring call pairs string and typed value from the same
    setting — so the code is in error. -/
theorem c8_useYIons_bug :
    ("use_Y_ions", "0", CVal.i 1) ∈ configureMassSettings rho0 c8Settings
    ∧ renderCVal rho0 (CVal.i 1) = "1"
    ∧ ("0" : String) ≠ "1" := by decide

/-- C10 (counterexample): the claim predicts that the stored
    `mass_offsets` list is exactly the parsed nonnegative token values,
    sorted.  On the line `mass_offsets = 3.0 xyz` the loader stores
    `[3.0, 3.0]` — the unparseable token `xyz` leaves the sticky `dMass`
    holding `3.0`, which is pushed again — while the claim's list is
    `[3.0]`. -/
theorem c10_counterexample :
    List.lookup "mass_offsets"
        (processKVLine (initLoadSt [] zeroScratch) ("mass_offsets = 3.0 xyz").data).params
      = some (PVal.dl [Dbl.mk 30 1, Dbl.mk 30 1])
    ∧ specMassOffsets (" 3.0 xyz").data = [Dbl.mk 30 1]
    ∧ [Dbl.mk 30 1, Dbl.mk 30 1] ≠ [Dbl.mk 30 1] := by decide

theorem stickyMassList_all_parse (ts : List (List Char))
    (h : ∀ tk ∈ ts, (readDblTok tk).isSome = true) :
    ∀ d0, stickyMassList d0 ts
      = (ts.filterMap (fun tk => (readDblTok tk).map Prod.fst)).filter
          (fun d => decide (Dbl.le dblZero d)) := by
  induction ts with
  | nil => intro d0; rfl
  | cons tk ts ih =>
    intro d0
    obtain ⟨p, hp⟩ := Option.isSome_iff_exists.mp (h tk (by simp))
    have ihr := ih (fun tk2 h2 => h tk2 (by simp [h2]))
    by_cases hle : Dbl.le dblZero p.1
    · simp [stickyMassList, hp, List.filterMap_cons, hle, ihr]
    · simp [stickyMassList, hp, List.filterMap_cons, hle, ihr]

/-- C10 (amended): for a `mass_offsets` (or `precursor_NL_ions`) line all
    of whose whitespace-separated tokens parse as doubles, the stored
    typed value is exactly the list of parsed values that are `>= 0.0`,
    sorted in nondecreasing order (negative offsets are silently
    dropped); an unparseable token instead repeats the previously parsed
    value, which is what the counterexample exhibits. -/
theorem c10_amended (st : LoadSt) (v : List Char)
    (h : ∀ tk ∈ splitTokens isTabOrSpace (trimWS v), (readDblTok tk).isSome = true) :
    runH H.listP "mass_offsets" st v
      = st.setP "mass_offsets" (PVal.dl (specMassOffsets v))
    ∧ runH H.listP "precursor_NL_ions" st v
      = st.setP "precursor_NL_ions" (PVal.dl (specMassOffsets v))
    ∧ paramTable.find? (fun p => p.1 == "mass_offsets")
        = some ("mass_offsets", H.listP)
    ∧ paramTable.find? (fun p => p.1 == "precursor_NL_ions")
        = some ("precursor_NL_ions", H.listP) := by
  refine ⟨?_, ?_, by decide, by decide⟩ <;>
    simp [runH, runListP, specMassOffsets,
      stickyMassList_all_parse (splitTokens isTabOrSpace (trimWS v)) h]

/-- C10 (witness for the amended theorem). -/
theorem c10_amended_witness :
    runH H.listP "mass_offsets" (initLoadSt [] zeroScratch) (" 1.5 -2.0 0.5").data
      = (initLoadSt [] zeroScratch).setP "mass_offsets"
          (PVal.dl (specMassOffsets (" 1.5 -2.0 0.5").data)) :=
  (c10_amended (initLoadSt [] zeroScratch) (" 1.5 -2.0 0.5").data (by decide)).1

/-- C5: a `key = value` line whose key is not in the recognized parameter
    list makes `LoadParameters` log a warning naming the key, store no
    parameter, and continue with the remaining lines: the resulting state
    keeps the parameter map (and everything else except the appended
    warning and the sticky `szParamName` buffer) unchanged, and the
    key/value fold proceeds to the rest of the file from that state. -/
theorem c5_unrecognized_key (st : LoadSt) (ln : String) (np vp : List Char)
    (name : String) (rest : List Char)
    (h0 : isEnzymeMarker ln.data = false)
    (h1 : splitEq (stripComment ln.data) = some (np, vp))
    (h2 : tokenW 127 np = some (name, rest))
    (h3 : recognizedKey name = false) :
    processKVLine st ln.data
      = { st with warnings := st.warnings ++ [warnMsg name],
                  scr := { st.scr with szParamName := name } }
    ∧ ∀ more, kvFold st (ln :: more)
        = kvFold { st with warnings := st.warnings ++ [warnMsg name],
                           scr := { st.scr with szParamName := name } } more := by
  have hvar : isVarModKey name = false := by
    revert h3; unfold recognizedKey; cases isVarModKey name <;> simp
  have hany : paramTable.any (fun p => p.1 == name) = false := by
    revert h3; unfold recognizedKey
    cases paramTable.any (fun p => p.1 == name) <;> simp
  have hfind : paramTable.find? (fun p => p.1 == name) = none := by
    rw [List.find?_eq_none]
    intro x hx
    exact fun hpx => (List.any_eq_false.mp hany x hx) hpx
  have hmain : processKVLine st ln.data
      = { st with warnings := st.warnings ++ [warnMsg name],
                  scr := { st.scr with szParamName := name } } := by
    simp only [processKVLine, h1, h2, hvar, Bool.false_eq_true, if_false, hfind]
  refine ⟨hmain, fun more => ?_⟩
  show (if isEnzymeMarker ln.data = true then (st, more)
        else kvFold (processKVLine st ln.data) more) = _
  rw [h0, hmain]
  simp

/-- C5 (witness). -/
theorem c5_witness :
    processKVLine (initLoadSt [] zeroScratch) ("foo_bar = 1").data
      = { initLoadSt [] zeroScratch with
            warnings := (initLoadSt [] zeroScratch).warnings ++ [warnMsg "foo_bar"],
            scr := { (initLoadSt [] zeroScratch).scr with szParamName := "foo_bar" } } :=
  (c5_unrecognized_key (initLoadSt [] zeroScratch) "foo_bar = 1" ("foo_bar ").data
    (" 1").data "foo_bar" [' '] (by decide) (by decide) (by decide) (by decide)).1

theorem digit_ne_p (c : Char) (h : isDigitCh c = true) (d : Char)
    (hd : isDigitCh d = false) : c ≠ d := fun hc => by
  rw [hc] at h; rw [h] at hd; exact Bool.noConfusion hd

theorem splitAtScanColon_append (f : List Char) (hf : ∀ c ∈ f, c ≠ ':')
    (c : Char) (r : List Char) (hc1 : c ≠ '\\') (hc2 : c ≠ '/') :
    splitAtScanColon (f ++ ':' :: c :: r) = (f, ':' :: c :: r) := by
  induction f with
  | nil =>
    show splitAtScanColon (':' :: c :: r) = ([], ':' :: c :: r)
    unfold splitAtScanColon
    simp [hc1, hc2]
  | cons a u ih =>
    have ha : a ≠ ':' := hf a (by simp)
    show splitAtScanColon (a :: (u ++ ':' :: c :: r)) = _
    unfold splitAtScanColon
    simp only [ha, if_false]
    rw [ih (fun d hd => hf d (by simp [hd]))]

theorem firstScanTok_of_colon (x : List Char) (hne : x ≠ [])
    (hall : ∀ c ∈ x, isColonOrNl c = false) :
    firstScanTok (':' :: x) = some x := by
  have h1 : (':' :: x).dropWhile isColonOrNl = x := by
    rw [show (':' :: x).dropWhile isColonOrNl = x.dropWhile isColonOrNl from by
      simp [List.dropWhile, isColonOrNl]]
    exact dropWhile_all_false _ x hall
  simp only [firstScanTok, h1, isEmpty_false_of_ne hne, Bool.false_eq_true, if_false,
    takeWhile_all_neg _ x hall]

/-- C4 (counterexample): the claim says every scan specifier sets the
    analysis type to a specific scan range, but a bare scan number sets
    `AnalysisType_SpecificScan`, a different constant. -/
theorem c4_counterexample :
    parseCmdLineFn (fun _ => true) none "input.mzXML:100"
      = some { szFileName := "input.mzXML",
               iAnalysisType := AnalysisType.specificScan,
               iFirstScan := 100, iLastScan := 100 }
    ∧ AnalysisType.specificScan ≠ AnalysisType.specificScanRange := by decide

/-- C4 (amended): for an input-file argument `file:spec` (with `A`, `B`
    nonempty digit strings and the file readable), `ParseCmdLine` parses
    `A-B` to first=A, last=B and `A+B` to first=A, last=A+B, both with
    analysis type SpecificScanRange; a bare `A` yields first=last=A with
    analysis type SpecificScan (not SpecificScanRange as claimed). -/
theorem c4_amended (fe : String → Bool) (gr : Option (Int × Int)) (f s t : String)
    (hf : ∀ c ∈ f.data, c ≠ ':') (hfe : fe f = true)
    (hs : s.data ≠ []) (hsd : ∀ c ∈ s.data, isDigitCh c = true)
    (ht : t.data ≠ []) (htd : ∀ c ∈ t.data, isDigitCh c = true) :
    parseCmdLineFn fe gr (f ++ ":" ++ s ++ "-" ++ t)
      = some { szFileName := f, iAnalysisType := AnalysisType.specificScanRange,
               iFirstScan := atoiM s, iLastScan := atoiM t }
    ∧ parseCmdLineFn fe gr (f ++ ":" ++ s ++ "+" ++ t)
      = some { szFileName := f, iAnalysisType := AnalysisType.specificScanRange,
               iFirstScan := atoiM s, iLastScan := atoiM s + atoiM t }
    ∧ parseCmdLineFn fe gr (f ++ ":" ++ s)
      = some { szFileName := f, iAnalysisType := AnalysisType.specificScan,
               iFirstScan := atoiM s, iLastScan := atoiM s } := by
  obtain ⟨c0, s', hs0⟩ : ∃ c0 s', s.data = c0 :: s' := by
    cases hsd' : s.data with
    | nil => exact absurd hsd' hs
    | cons a u => exact ⟨a, u, rfl⟩
  have hc0 : isDigitCh c0 = true := hsd c0 (by rw [hs0]; simp)
  have hmkf : String.mk f.data = f := rfl
  refine ⟨?_, ?_, ?_⟩
  · -- the A-B form
    have key : (f ++ ":" ++ s ++ "-" ++ t).data
        = f.data ++ ':' :: (s.data ++ '-' :: t.data) := by
      simp [String.data_append]
    have hall : ∀ c ∈ s.data ++ '-' :: t.data, isColonOrNl c = false := by
      intro c hcm
      rcases List.mem_append.mp hcm with hcm | hcm
      · exact digit_not_colonNl c (hsd c hcm)
      · rcases List.mem_cons.mp hcm with hcm | hcm
        · rw [hcm]; decide
        · exact digit_not_colonNl c (htd c hcm)
    unfold parseCmdLineFn
    rw [key, hs0]
    simp only [List.cons_append]
    rw [splitAtScanColon_append f.data hf c0 (s' ++ '-' :: t.data)
      (digit_ne_p c0 hc0 '\\' (by decide)) (digit_ne_p c0 hc0 '/' (by decide))]
    simp only [hmkf, hfe]
    rw [show (':' :: c0 :: (s' ++ '-' :: t.data) : List Char)
          = ':' :: (s.data ++ '-' :: t.data) from by rw [hs0, List.cons_append]]
    rw [firstScanTok_of_colon (s.data ++ '-' :: t.data) (by simp) hall]
    have hdash : (s.data ++ '-' :: t.data).any (fun c => c = '-') = true := by
      simp
    simp only [hdash, if_true]
    rw [splitTokens_two isDashOrNl s.data t.data '-' (by decide) hs
      (fun c hcm => digit_not_dashNl c (hsd c hcm)) ht
      (fun c hcm => digit_not_dashNl c (htd c hcm))]
    simp [inputFileInfoInit, atoiL]
  · -- the A+B form
    have key : (f ++ ":" ++ s ++ "+" ++ t).data
        = f.data ++ ':' :: (s.data ++ '+' :: t.data) := by
      simp [String.data_append]
    have hall : ∀ c ∈ s.data ++ '+' :: t.data, isColonOrNl c = false := by
      intro c hcm
      rcases List.mem_append.mp hcm with hcm | hcm
      · exact digit_not_colonNl c (hsd c hcm)
      · rcases List.mem_cons.mp hcm with hcm | hcm
        · rw [hcm]; decide
        · exact digit_not_colonNl c (htd c hcm)
    unfold parseCmdLineFn
    rw [key, hs0]
    simp only [List.cons_append]
    rw [splitAtScanColon_append f.data hf c0 (s' ++ '+' :: t.data)
      (digit_ne_p c0 hc0 '\\' (by decide)) (digit_ne_p c0 hc0 '/' (by decide))]
    simp only [hmkf, hfe]
    rw [show (':' :: c0 :: (s' ++ '+' :: t.data) : List Char)
          = ':' :: (s.data ++ '+' :: t.data) from by rw [hs0, List.cons_append]]
    rw [firstScanTok_of_colon (s.data ++ '+' :: t.data) (by simp) hall]
    have hdash : (s.data ++ '+' :: t.data).any (fun c => c = '-') = false := by
      rw [List.any_eq_false]
      intro c hcm
      rcases List.mem_append.mp hcm with hcm | hcm
      · simp [of_decide_eq_false (digit_ne c (hsd c hcm) '-' (by decide))]
      · rcases List.mem_cons.mp hcm with hcm | hcm
        · rw [hcm]; decide
        · simp [of_decide_eq_false (digit_ne c (htd c hcm) '-' (by decide))]
    have hplus : (s.data ++ '+' :: t.data).any (fun c => c = '+') = true := by
      simp
    simp only [hdash, Bool.false_eq_true, if_false, hplus, if_true]
    rw [splitTokens_two isPlusOrNl s.data t.data '+' (by decide) hs
      (fun c hcm => digit_not_plusNl c (hsd c hcm)) ht
      (fun c hcm => digit_not_plusNl c (htd c hcm))]
    simp [inputFileInfoInit, atoiL]
  · -- the bare-number form
    have key : (f ++ ":" ++ s).data = f.data ++ ':' :: s.data := by
      simp [String.data_append]
    have hall : ∀ c ∈ s.data, isColonOrNl c = false :=
      fun c hcm => digit_not_colonNl c (hsd c hcm)
    unfold parseCmdLineFn
    rw [key, hs0]
    simp only [List.cons_append]
    rw [splitAtScanColon_append f.data hf c0 s'
      (digit_ne_p c0 hc0 '\\' (by decide)) (digit_ne_p c0 hc0 '/' (by decide))]
    simp only [hmkf, hfe]
    rw [← hs0, firstScanTok_of_colon s.data hs hall]
    have hdash : s.data.any (fun c => c = '-') = false := by
      rw [List.any_eq_false]
      intro c hcm
      simp [of_decide_eq_false (digit_ne c (hsd c hcm) '-' (by decide))]
    have hplus : s.data.any (fun c => c = '+') = false := by
      rw [List.any_eq_false]
      intro c hcm
      simp [of_decide_eq_false (digit_ne c (hsd c hcm) '+' (by decide))]
    simp only [hdash, hplus, Bool.false_eq_true, if_false]
    simp [inputFileInfoInit, atoiL]

/-- C4 (witness for the amended theorem). -/
theorem c4_amended_witness :
    parseCmdLineFn (fun _ => true) none "in.mzXML:100-200"
      = some { szFileName := "in.mzXML",
               iAnalysisType := AnalysisType.specificScanRange,
               iFirstScan := 100, iLastScan := 200 } := by
  have h := (c4_amended (fun _ => true) none "in.mzXML" "100" "200"
    (by decide) rfl (by decide) (by decide) (by decide) (by decide)).1
  exact h.trans (by decide)

theorem versionScanAux_none (validVer : String → Bool) (lines : List String)
    (hlines : ∀ ln ∈ lines, versionMarker.data.isPrefixOf ln.data = true →
      ∀ c, validVer c = false → validVer (versionTok3 c ln.data).1 = false) :
    ∀ cur, validVer cur = false → versionScanAux validVer cur lines = none := by
  induction lines with
  | nil => intro cur _; rfl
  | cons ln rest ih =>
    intro cur hcur
    have ihr := ih (fun l hl => hlines l (by simp [hl]))
    unfold versionScanAux
    by_cases hpre : versionMarker.data.isPrefixOf ln.data = true
    · have hbad : validVer (versionTok3 cur ln.data).1 = false :=
        hlines ln (by simp) hpre cur hcur
      simp only [hpre, if_true, hbad, Bool.false_eq_true, if_false]
      exact ihr _ hbad
    · rw [Bool.not_eq_true] at hpre
      simp only [hpre, Bool.false_eq_true, if_false]
      exact ihr cur hcur

/-- C2: a params file with no `# comet_version ` line whose version token
    the manager accepts is rejected by `LoadParameters` with exit code 1,
    before any key/value entry is parsed (the version scan precedes the
    key/value phase, and the error return carries no parsed state).  The
    hypothesis `hlines` says each marker line's scanned version token is
    rejected (even when the token is missing and the sticky `szVersion`
    buffer — initially `"unknown"`, rejected by `hunk` — is reused). -/
theorem c2_missing_version_marker (validVer : String → Bool) (g : Int)
    (params0 : List (String × PVal)) (scr : Scratch) (lines : List String)
    (hunk : validVer "unknown" = false)
    (hlines : ∀ ln ∈ lines, versionMarker.data.isPrefixOf ln.data = true →
      ∀ c, validVer c = false → validVer (versionTok3 c ln.data).1 = false) :
    loadParameters validVer g (initLoadSt params0 scr) lines
      = Except.error LoadError.badVersion
    ∧ LoadError.badVersion.exitCode = 1 := by
  refine ⟨?_, rfl⟩
  unfold loadParameters
  rw [versionScanAux_none validVer lines hlines "unknown" hunk]

/-- C2 (witness): a file whose only marker-like line names an old
    version. -/
theorem c2_witness :
    loadParameters isValidCometVersionModel 0 (initLoadSt [] zeroScratch) c2File
      = Except.error LoadError.badVersion
    ∧ LoadError.badVersion.exitCode = 1 := by
  refine c2_missing_version_marker isValidCometVersionModel 0 [] zeroScratch c2File
    (by decide) ?_
  intro ln hln hpre c hc
  rcases List.mem_cons.mp hln with h | h
  · rw [h]
    rw [show (versionTok3 c ("# comet_version 2019.01 rev. 5").data).1
          = "2019.01" from rfl]
    decide
  · rcases List.mem_cons.mp h with h2 | h2
    · rw [h2] at hpre
      exact absurd hpre (by decide)
    · cases h2

theorem runVarModKV_flag (st : LoadSt) (name : String) (v : List Char) :
    (runVarModKV st name v).bCurrentParamsFile = st.bCurrentParamsFile := rfl

theorem runH_flag (h : H) (key : String) (st : LoadSt) (v : List Char) :
    (runH h key st v).bCurrentParamsFile
      = (st.bCurrentParamsFile || (h == H.percoP)) := by
  cases h
  case irP =>
    unfold runH runIrP
    cases readIntTok v with
    | none => simp [LoadSt.setP]
    | some p =>
      rcases hq : readIntTok p.2 with _ | q <;> simp [hq, LoadSt.setP]
  case drP =>
    unfold runH runDrP
    cases readDblTok v with
    | none => simp [LoadSt.setP]
    | some p =>
      rcases hq : readDblTok p.2 with _ | q <;> simp [hq, LoadSt.setP]
  case percoP => simp [runH, runPercoP, runIntP, LoadSt.setP]
  all_goals simp [runH, runFileP, runStrP, runIntP, runLongP, runDblP, runListP,
    runEnz1P, runEnz2P, runEnzSampP, runMissedP, LoadSt.setP]

theorem processKVLine_flag_mono (st : LoadSt) (l : List Char)
    (h : st.bCurrentParamsFile = true) :
    (processKVLine st l).bCurrentParamsFile = true := by
  cases hse : splitEq (stripComment l) with
  | none => simp only [processKVLine, hse]; exact h
  | some nv =>
    simp only [processKVLine, hse]
    split
    · rw [runVarModKV_flag]; exact h
    · split
      · rw [runH_flag]; simp [h]
      · exact h

theorem processKVLine_flag_preserve (st : LoadSt) (ln : String)
    (h : kvNameOk ln = true) :
    (processKVLine st ln.data).bCurrentParamsFile = st.bCurrentParamsFile := by
  unfold kvNameOk at h
  cases hse : splitEq (stripComment ln.data) with
  | none => simp only [processKVLine, hse]
  | some nv =>
    cases htok : tokenW 127 nv.1 with
    | none => simp [hse, htok] at h
    | some p =>
      simp only [hse, htok] at h
      have hname : p.1 ≠ "output_percolatorfile" := by simpa using h
      simp only [processKVLine, hse, htok]
      split
      · rw [runVarModKV_flag]
      · split
        · rename_i e hfind
          have hmem := List.mem_of_find?_eq_some hfind
          have hkey : (e.1 == p.1) = true := by
            simpa using List.find?_some hfind
          have hkey2 : e.1 ≠ "output_percolatorfile" := by
            intro hc
            exact hname (by rw [← (beq_iff_eq.mp hkey), hc])
          have hnp : (e.2 == H.percoP) = false := by
            have htab : ∀ q ∈ paramTable, q.2 = H.percoP →
                q.1 = "output_percolatorfile" := by decide
            by_cases hq : e.2 = H.percoP
            · exact absurd (htab e hmem hq) hkey2
            · simpa using hq
          rw [runH_flag, hnp, Bool.or_false]
        · rfl

theorem processKVLine_flag_set (st : LoadSt) (ln : String)
    (h : isPercoLine ln = true) :
    (processKVLine st ln.data).bCurrentParamsFile = true := by
  unfold isPercoLine at h
  cases hse : splitEq (stripComment ln.data) with
  | none => simp [hse] at h
  | some nv =>
    cases htok : tokenW 127 nv.1 with
    | none => simp [hse, htok] at h
    | some p =>
      simp only [hse, htok] at h
      have hname : p.1 = "output_percolatorfile" := by simpa using h
      have hvm : isVarModKey "output_percolatorfile" = false := by decide
      have hfind : paramTable.find? (fun q => q.1 == "output_percolatorfile")
          = some ("output_percolatorfile", H.percoP) := by decide
      simp only [processKVLine, hse, htok, hname, hvm, Bool.false_eq_true,
        if_false, hfind]
      rfl

theorem kvLines_cons_marker (ln : String) (rest : List String)
    (hm : isEnzymeMarker ln.data = true) : kvLines (ln :: rest) = [] := by
  simp [kvLines, hm]

theorem kvLines_cons (ln : String) (rest : List String)
    (hm : ¬ isEnzymeMarker ln.data = true) :
    kvLines (ln :: rest) = ln :: kvLines rest := by
  simp [kvLines, hm]

theorem kvFold_flag_preserve (lines : List String) :
    ∀ st, (∀ ln ∈ kvLines lines, kvNameOk ln = true) →
      ((kvFold st lines).1).bCurrentParamsFile = st.bCurrentParamsFile := by
  induction lines with
  | nil => intro st _; rfl
  | cons ln rest ih =>
    intro st h
    show ((if isEnzymeMarker ln.data = true then (st, rest)
           else kvFold (processKVLine st ln.data) rest).1).bCurrentParamsFile = _
    by_cases hm : isEnzymeMarker ln.data = true
    · rw [if_pos hm]
    · rw [if_neg hm]
      have hkv := kvLines_cons ln rest hm
      have hln : kvNameOk ln = true := h ln (by rw [hkv]; simp)
      rw [ih (processKVLine st ln.data)
        (fun l hl => h l (by rw [hkv]; simp [hl]))]
      exact processKVLine_flag_preserve st ln hln

theorem kvFold_flag_mono (lines : List String) :
    ∀ st, st.bCurrentParamsFile = true →
      ((kvFold st lines).1).bCurrentParamsFile = true := by
  induction lines with
  | nil => intro st h; exact h
  | cons ln rest ih =>
    intro st h
    show ((if isEnzymeMarker ln.data = true then (st, rest)
           else kvFold (processKVLine st ln.data) rest).1).bCurrentParamsFile = _
    by_cases hm : isEnzymeMarker ln.data = true
    · rw [if_pos hm]; exact h
    · rw [if_neg hm]
      exact ih _ (processKVLine_flag_mono st ln.data h)

theorem kvFold_flag_set (lines : List String) :
    ∀ st, (∃ ln, ln ∈ kvLines lines ∧ isPercoLine ln = true) →
      ((kvFold st lines).1).bCurrentParamsFile = true := by
  induction lines with
  | nil =>
    intro st h
    rcases h with ⟨l0, hl0, _⟩
    cases hl0
  | cons ln rest ih =>
    intro st h
    rcases h with ⟨l0, hl0, hperc⟩
    show ((if isEnzymeMarker ln.data = true then (st, rest)
           else kvFold (processKVLine st ln.data) rest).1).bCurrentParamsFile = _
    by_cases hm : isEnzymeMarker ln.data = true
    · rw [kvLines_cons_marker ln rest hm] at hl0
      cases hl0
    · rw [if_neg hm]
      rw [kvLines_cons ln rest hm] at hl0
      rcases List.mem_cons.mp hl0 with he | he
      · rw [← he] at hm ⊢
        exact kvFold_flag_mono rest _ (processKVLine_flag_set st l0 hperc)
      · exact ih _ ⟨l0, he, hperc⟩

/-- C9: with an accepted version marker, a params file with no
    `output_percolatorfile` key/value entry before `[COMET_ENZYME_INFO]`
    makes `LoadParameters` report an outdated params file and exit with
    code 1 (the `bCurrentParamsFile` flag is set only by that branch);
    conversely the presence of that entry is exactly what prevents the
    outdated-file error. -/
theorem c9_outdated_params (validVer : String → Bool) (g : Int)
    (params0 : List (String × PVal)) (scr : Scratch) (lines : List String)
    (verStr : String)
    (hver : versionScanAux validVer "unknown" lines = some verStr) :
    ((∀ ln ∈ kvLines lines, kvNameOk ln = true) →
        loadParameters validVer g (initLoadSt params0 scr) lines
          = Except.error LoadError.outdated
        ∧ LoadError.outdated.exitCode = 1)
    ∧ ((∃ ln, ln ∈ kvLines lines ∧ isPercoLine ln = true) →
        loadParameters validVer g (initLoadSt params0 scr) lines
          ≠ Except.error LoadError.outdated) := by
  constructor
  · intro hA
    refine ⟨?_, rfl⟩
    have hflag := kvFold_flag_preserve lines
      ((initLoadSt params0 scr).setP "# comet_version" (PVal.s verStr)) hA
    simp only [loadParameters, hver, hflag]
    rfl
  · intro hB
    have hflag := kvFold_flag_set lines
      ((initLoadSt params0 scr).setP "# comet_version" (PVal.s verStr)) hB
    simp only [loadParameters, hver, hflag]
    split_ifs <;> simp_all

/-- C9 (witness): applying the theorem to a file without the entry and to
    a file with it. -/
theorem c9_witness :
    loadParameters isValidCometVersionModel 0 (initLoadSt [] zeroScratch) c9FileA
      = Except.error LoadError.outdated
    ∧ loadParameters isValidCometVersionModel 0 (initLoadSt [] zeroScratch) c9FileB
      ≠ Except.error LoadError.outdated := by
  constructor
  · exact ((c9_outdated_params isValidCometVersionModel 0 [] zeroScratch c9FileA
      "2025.01 rev. 0" (by decide)).1 (by decide)).1
  · exact (c9_outdated_params isValidCometVersionModel 0 [] zeroScratch c9FileB
      "2025.01 rev. 0" (by decide)).2
      ⟨"output_percolatorfile = 1", by decide, by decide⟩

theorem enzStep_search_name (n1 n2 ns : Int) (es : EnzState) (cs : List Char)
    (hsome : ((readIntTok cs).map Prod.fst).isSome = true)
    (hne : (readIntTok cs).map Prod.fst ≠ some n1) :
    (enzStep n1 n2 ns es cs).info.szSearchEnzymeName
      = es.info.szSearchEnzymeName := by
  cases hr : readIntTok cs with
  | none => rw [hr] at hsome; cases hsome
  | some pr =>
    rw [hr] at hne
    have hk : pr.1 ≠ n1 := by simpa using hne
    simp only [enzStep, hr]
    rw [if_neg hk]
    split <;> split <;> rfl

theorem enzStep_enzyme2_name (n1 n2 ns : Int) (es : EnzState) (cs : List Char)
    (hsome : ((readIntTok cs).map Prod.fst).isSome = true)
    (hne : (readIntTok cs).map Prod.fst ≠ some n2) :
    (enzStep n1 n2 ns es cs).info.szSearchEnzyme2Name
      = es.info.szSearchEnzyme2Name := by
  cases hr : readIntTok cs with
  | none => rw [hr] at hsome; cases hsome
  | some pr =>
    rw [hr] at hne
    have hk : pr.1 ≠ n2 := by simpa using hne
    simp only [enzStep, hr]
    rw [if_neg hk]
    split <;> split <;> rfl

theorem enzStep_sample_name (n1 n2 ns : Int) (es : EnzState) (cs : List Char)
    (hsome : ((readIntTok cs).map Prod.fst).isSome = true)
    (hne : (readIntTok cs).map Prod.fst ≠ some ns) :
    (enzStep n1 n2 ns es cs).info.szSampleEnzymeName
      = es.info.szSampleEnzymeName := by
  cases hr : readIntTok cs with
  | none => rw [hr] at hsome; cases hsome
  | some pr =>
    rw [hr] at hne
    have hk : pr.1 ≠ ns := by simpa using hne
    simp only [enzStep, hr]
    rw [if_neg hk]
    split <;> split <;> rfl

theorem enzFold_search_name (n1 n2 ns : Int) (lines : List String)
    (h : ∀ ln ∈ lines, ((readIntTok ln.data).map Prod.fst).isSome = true
      ∧ (readIntTok ln.data).map Prod.fst ≠ some n1) :
    ∀ es, (enzFold n1 n2 ns es lines).info.szSearchEnzymeName
      = es.info.szSearchEnzymeName := by
  induction lines with
  | nil => intro es; rfl
  | cons ln rest ih =>
    intro es
    show (enzFold n1 n2 ns (enzStep n1 n2 ns es ln.data) rest).info.szSearchEnzymeName = _
    rw [ih (fun l hl => h l (by simp [hl]))]
    exact enzStep_search_name n1 n2 ns es ln.data (h ln (by simp)).1 (h ln (by simp)).2

theorem enzFold_enzyme2_name (n1 n2 ns : Int) (lines : List String)
    (h : ∀ ln ∈ lines, ((readIntTok ln.data).map Prod.fst).isSome = true
      ∧ (readIntTok ln.data).map Prod.fst ≠ some n2) :
    ∀ es, (enzFold n1 n2 ns es lines).info.szSearchEnzyme2Name
      = es.info.szSearchEnzyme2Name := by
  induction lines with
  | nil => intro es; rfl
  | cons ln rest ih =>
    intro es
    show (enzFold n1 n2 ns (enzStep n1 n2 ns es ln.data) rest).info.szSearchEnzyme2Name = _
    rw [ih (fun l hl => h l (by simp [hl]))]
    exact enzStep_enzyme2_name n1 n2 ns es ln.data (h ln (by simp)).1 (h ln (by simp)).2

theorem enzFold_sample_name (n1 n2 ns : Int) (lines : List String)
    (h : ∀ ln ∈ lines, ((readIntTok ln.data).map Prod.fst).isSome = true
      ∧ (readIntTok ln.data).map Prod.fst ≠ some ns) :
    ∀ es, (enzFold n1 n2 ns es lines).info.szSampleEnzymeName
      = es.info.szSampleEnzymeName := by
  induction lines with
  | nil => intro es; rfl
  | cons ln rest ih =>
    intro es
    show (enzFold n1 n2 ns (enzStep n1 n2 ns es ln.data) rest).info.szSampleEnzymeName = _
    rw [ih (fun l hl => h l (by simp [hl]))]
    exact enzStep_sample_name n1 n2 ns es ln.data (h ln (by simp)).1 (h ln (by simp)).2

/-- C7: with an accepted version and a current (non-outdated) params
    file, if the enzyme table after `[COMET_ENZYME_INFO]` contains no
    line whose leading numeric index equals the configured
    `search_enzyme_number`, `LoadParameters` fails with the error naming
    that number and exit code 1; likewise for `search_enzyme2_number`
    (when the first enzyme was found) and for `sample_enzyme_number`
    (when the first two were found).  Table lines are assumed to carry a
    leading numeric index (an index-less line reuses the sticky
    `iCurrentEnzymeNumber` of the previous line). -/
theorem c7_missing_enzyme (validVer : String → Bool) (g : Int)
    (params0 : List (String × PVal)) (scr : Scratch) (lines : List String)
    (verStr : String) (st1 : LoadSt) (enzLs : List String)
    (hver : versionScanAux validVer "unknown" lines = some verStr)
    (hkv : kvFold ((initLoadSt params0 scr).setP "# comet_version"
      (PVal.s verStr)) lines = (st1, enzLs))
    (hflag : st1.bCurrentParamsFile = true) :
    ((∀ ln ∈ enzLs, ((readIntTok ln.data).map Prod.fst).isSome = true
        ∧ (readIntTok ln.data).map Prod.fst ≠ some st1.iSearchEnzymeNumber) →
      loadParameters validVer g (initLoadSt params0 scr) lines
        = Except.error (LoadError.missingSearchEnzyme st1.iSearchEnzymeNumber)
      ∧ (LoadError.missingSearchEnzyme st1.iSearchEnzymeNumber).exitCode = 1)
    ∧ ((enzFold st1.iSearchEnzymeNumber st1.iSearchEnzyme2Number
          st1.iSampleEnzymeNumber ⟨g, enzymeInfoDefault⟩ enzLs).info.szSearchEnzymeName ≠ "-" →
       (∀ ln ∈ enzLs, ((readIntTok ln.data).map Prod.fst).isSome = true
        ∧ (readIntTok ln.data).map Prod.fst ≠ some st1.iSearchEnzyme2Number) →
      loadParameters validVer g (initLoadSt params0 scr) lines
        = Except.error (LoadError.missingSearchEnzyme2 st1.iSearchEnzyme2Number)
      ∧ (LoadError.missingSearchEnzyme2 st1.iSearchEnzyme2Number).exitCode = 1)
    ∧ ((enzFold st1.iSearchEnzymeNumber st1.iSearchEnzyme2Number
          st1.iSampleEnzymeNumber ⟨g, enzymeInfoDefault⟩ enzLs).info.szSearchEnzymeName ≠ "-" →
       (enzFold st1.iSearchEnzymeNumber st1.iSearchEnzyme2Number
          st1.iSampleEnzymeNumber ⟨g, enzymeInfoDefault⟩ enzLs).info.szSearchEnzyme2Name ≠ "-" →
       (∀ ln ∈ enzLs, ((readIntTok ln.data).map Prod.fst).isSome = true
        ∧ (readIntTok ln.data).map Prod.fst ≠ some st1.iSampleEnzymeNumber) →
      loadParameters validVer g (initLoadSt params0 scr) lines
        = Except.error (LoadError.missingSampleEnzyme st1.iSampleEnzymeNumber)
      ∧ (LoadError.missingSampleEnzyme st1.iSampleEnzymeNumber).exitCode = 1) := by
  refine ⟨fun hA => ⟨?_, rfl⟩, fun hf1 hB => ⟨?_, rfl⟩, fun hf1 hf2 hC => ⟨?_, rfl⟩⟩
  · have hname : (enzFold st1.iSearchEnzymeNumber st1.iSearchEnzyme2Number
        st1.iSampleEnzymeNumber ⟨g, enzymeInfoDefault⟩ enzLs).info.szSearchEnzymeName
          = "-" := by
      rw [enzFold_search_name st1.iSearchEnzymeNumber st1.iSearchEnzyme2Number
        st1.iSampleEnzymeNumber enzLs hA ⟨g, enzymeInfoDefault⟩]
      rfl
    simp only [loadParameters, hver, hkv]
    simp [hflag, hname]
  · have hname : (enzFold st1.iSearchEnzymeNumber st1.iSearchEnzyme2Number
        st1.iSampleEnzymeNumber ⟨g, enzymeInfoDefault⟩ enzLs).info.szSearchEnzyme2Name
          = "-" := by
      rw [enzFold_enzyme2_name st1.iSearchEnzymeNumber st1.iSearchEnzyme2Number
        st1.iSampleEnzymeNumber enzLs hB ⟨g, enzymeInfoDefault⟩]
      rfl
    simp only [loadParameters, hver, hkv]
    simp [hflag, hf1, hname]
  · have hname : (enzFold st1.iSearchEnzymeNumber st1.iSearchEnzyme2Number
        st1.iSampleEnzymeNumber ⟨g, enzymeInfoDefault⟩ enzLs).info.szSampleEnzymeName
          = "-" := by
      rw [enzFold_sample_name st1.iSearchEnzymeNumber st1.iSearchEnzyme2Number
        st1.iSampleEnzymeNumber enzLs hC ⟨g, enzymeInfoDefault⟩]
      rfl
    simp only [loadParameters, hver, hkv]
    simp [hflag, hf1, hf2, hname]

/-- C7 (witness): `c7File` configures `search_enzyme_number = 3` but its
    enzyme table defines only entries 0 and 1. -/
theorem c7_witness :
    loadParameters isValidCometVersionModel 0 (initLoadSt [] zeroScratch) c7File
      = Except.error (LoadError.missingSearchEnzyme 3) := by
  have h := ((c7_missing_enzyme isValidCometVersionModel 0 [] zeroScratch c7File
    "2025.01 rev. 0" c7Kv.1 c7Kv.2 (by decide) rfl (by decide)).1 (by decide)).1
  exact h.trans (by decide)

theorem parseCmdLineFn_some (fe : String → Bool) (gr : Option (Int × Int))
    (cmd : String)
    (hfe : fe (String.mk (splitAtScanColon cmd.data).1) = true) :
    ∃ info, parseCmdLineFn fe gr cmd = some info := by
  unfold parseCmdLineFn
  simp only [hfe]
  split
  · rename_i h
    exact absurd h (by decide)
  · split
    · split
      · exact ⟨_, rfl⟩
      · exact ⟨_, rfl⟩
    · split
      · exact ⟨_, rfl⟩
      · split
        · exact ⟨_, rfl⟩
        · exact ⟨_, rfl⟩

theorem parseCmdLineFn_none (fe : String → Bool) (gr : Option (Int × Int))
    (cmd : String)
    (hfe : fe (String.mk (splitAtScanColon cmd.data).1) = false) :
    parseCmdLineFn fe gr cmd = none := by
  unfold parseCmdLineFn
  simp [hfe]

/-- C6: running with `-F<n>` and no `-L` is not an error; after
    `ProcessCmdLine`, the stored `scan_range` keeps the end value the
    loaded params file produced and only the start is overwritten with
    `n`, because `SetOptions` re-applies `-F` after `LoadParameters`,
    reading the current range and replacing its start.  `ft` is the
    token scanned from the `-F` argument, `lst` the loader's result, and
    `(a, b)` the scan range it stores. -/
theorem c6_first_scan_only (env : Env) (fs : List Char) (ft : String)
    (rest : List Char) (inputName : String) (lines : List String)
    (lst : LoadSt) (a b : Int)
    (h1 : tokenW 511 fs = some (ft, rest))
    (h2 : isDashArg inputName = false)
    (h3 : env.fileLines (pass1St env (c6Args fs inputName)).paramsFile = some lines)
    (h4 : loadParameters env.validVer env.gEnz
      (initLoadSt (pass1St env (c6Args fs inputName)).params env.scr0) lines
        = Except.ok lst)
    (h5 : List.lookup "scan_range" lst.params = some (PVal.ir a b))
    (h6 : (env.fileLines (String.mk (splitAtScanColon inputName.data).1)).isSome = true) :
    ∃ stF files, processCmdLine env (c6Args fs inputName) = Except.ok (stF, files)
      ∧ List.lookup "scan_range" stF.params = some (PVal.ir (atoiM ft) b) := by
  have hdash1 : isDashArg (String.mk ('-' :: 'F' :: fs)) = true := rfl
  have hsetF : ∀ st : CmdSt, setOptionsFn env st (String.mk ('-' :: 'F' :: fs))
      = st.setP "scan_range"
          (PVal.ir (atoiM ft) ((lookupScanRange st.params).getD env.uninitScanRange).2) := by
    intro st
    show st.setP "scan_range"
      (PVal.ir
        (atoiM (match tokenW 511 fs with | some p => p.1 | none => env.uninitTok))
        ((lookupScanRange st.params).getD env.uninitScanRange).2) = _
    rw [h1]
  have hpass1 : pass1St env (c6Args fs inputName)
      = (initCmdSt env).setP "scan_range"
          (PVal.ir (atoiM ft)
            ((lookupScanRange (initCmdSt env).params).getD env.uninitScanRange).2) := by
    unfold pass1St c6Args
    simp only [optionsPass]
    rw [if_pos hdash1]
    rw [if_neg (by simp [h2])]
    exact hsetF (initCmdSt env)
  have hflag : (pass1St env (c6Args fs inputName)).bPrintParams = false := by
    rw [hpass1]; rfl
  have hargsne : (c6Args fs inputName).isEmpty = false := rfl
  have hps : optionsPass env (initCmdSt env) (c6Args fs inputName)
      = pass1St env (c6Args fs inputName) := rfl
  obtain ⟨P, hP⟩ : ∃ P, pass1St env (c6Args fs inputName) = P := ⟨_, rfl⟩
  rw [hP] at h3 h4 hflag
  have hlook : lookupScanRange lst.params = some (a, b) := by
    unfold lookupScanRange
    rw [h5]
  have hs2 : setOptionsFn env
      { params := lst.params, paramsFile := P.paramsFile,
        bPrintParams := P.bPrintParams, outputBaseName := P.outputBaseName }
      (String.mk ('-' :: 'F' :: fs))
        = CmdSt.setP
            { params := lst.params, paramsFile := P.paramsFile,
              bPrintParams := P.bPrintParams, outputBaseName := P.outputBaseName }
            "scan_range" (PVal.ir (atoiM ft) b) := by
    rw [hsetF]
    show CmdSt.setP _ "scan_range"
      (PVal.ir (atoiM ft) ((lookupScanRange lst.params).getD env.uninitScanRange).2) = _
    rw [hlook]
    rfl
  obtain ⟨info, hinfo⟩ := parseCmdLineFn_some
    (fun f => (env.fileLines f).isSome)
    (lookupScanRange
      (CmdSt.setP
        { params := lst.params, paramsFile := P.paramsFile,
          bPrintParams := P.bPrintParams, outputBaseName := P.outputBaseName }
        "scan_range" (PVal.ir (atoiM ft) b)).params)
    inputName h6
  refine ⟨CmdSt.setP
    { params := lst.params, paramsFile := P.paramsFile,
      bPrintParams := P.bPrintParams, outputBaseName := P.outputBaseName }
    "scan_range" (PVal.ir (atoiM ft) b), [info], ?_, ?_⟩
  · simp only [processCmdLine, hargsne, Bool.false_eq_true, if_false]
    rw [hps, hP]
    rw [if_neg (by simp [hflag])]
    simp only [h3, h4]
    rw [show c6Args fs inputName = [String.mk ('-' :: 'F' :: fs), inputName] from rfl]
    simp only [inputPass]
    rw [if_pos hdash1]
    rw [hs2]
    rw [if_neg (by simp [h2])]
    rw [hinfo]
    rfl
  · show List.lookup "scan_range"
      (setAssoc lst.params "scan_range" (PVal.ir (atoiM ft) b))
        = some (PVal.ir (atoiM ft) b)
    exact lookup_setAssoc_self lst.params "scan_range" (PVal.ir (atoiM ft) b)

theorem c6_witness :
    ∃ stF files,
      processCmdLine envW (c6Args ("5").data "in.mzXML") = Except.ok (stF, files)
        ∧ List.lookup "scan_range" stF.params = some (PVal.ir (atoiM "5") 2000) :=
  c6_first_scan_only envW ("5").data "5" [] "in.mzXML" miniParamsFile c6Lst 100 2000
    (by decide) (by decide) (by decide) (by decide) (by decide) (by decide)

theorem setOptionsFn_flag (env : Env) (st : CmdSt) (a : String)
    (h : isDashArg a = true) :
    (setOptionsFn env st a).bPrintParams = (st.bPrintParams || hasPElem a) := by
  rcases a with ⟨l⟩
  rcases l with _ | ⟨c, l⟩
  · simp [isDashArg] at h
  rcases l with _ | ⟨d, t⟩
  · simp [setOptionsFn, hasPElem]
  · have hc : c = '-' := by simpa [isDashArg] using h
    subst hc
    simp only [setOptionsFn, hasPElem]
    split_ifs <;> simp_all [CmdSt.setP]

theorem hasPElem_false_of_not_dash (a : String) (h : isDashArg a = false) :
    hasPElem a = false := by
  rcases a with ⟨l⟩
  rcases l with _ | ⟨c, l⟩
  · rfl
  rcases l with _ | ⟨d, t⟩
  · rfl
  · simp only [isDashArg] at h
    simp [hasPElem, h]

theorem optionsPass_flag (env : Env) (args : List String) : ∀ st : CmdSt,
    (optionsPass env st args).bPrintParams
      = (st.bPrintParams || hasPrintFlag args) := by
  induction args with
  | nil => intro st; simp [optionsPass, hasPrintFlag]
  | cons a rest ih =>
    intro st
    simp only [optionsPass]
    cases hd : isDashArg a with
    | true =>
      rw [if_pos rfl, ih, setOptionsFn_flag env st a hd]
      simp [hasPrintFlag, List.any_cons, Bool.or_assoc]
    | false =>
      rw [if_neg (by simp), ih]
      simp [hasPrintFlag, List.any_cons, hasPElem_false_of_not_dash a hd]

theorem inputPass_error_one (env : Env) : ∀ (args : List String) (st : CmdSt)
    (acc : List InputFileInfo) (e : Nat),
    inputPass env st acc args = Except.error e → e = 1 := by
  intro args
  induction args with
  | nil => intro st acc e h; simp [inputPass] at h
  | cons a rest ih =>
    intro st acc e h
    simp only [inputPass] at h
    split at h
    · exact ih _ _ _ h
    · split at h
      · injection h with h
        exact h.symm
      · exact ih _ _ _ h

theorem inputPass_fails (env : Env) (aIn : String)
    (hnd : isDashArg aIn = false)
    (hfe : (env.fileLines (String.mk (splitAtScanColon aIn.data).1)).isSome = false) :
    ∀ args : List String, aIn ∈ args → ∀ st acc,
      inputPass env st acc args = Except.error 1 := by
  intro args
  induction args with
  | nil => intro hmem; exact absurd hmem (by simp)
  | cons b rest ih =>
    intro hmem st acc
    rcases List.mem_cons.mp hmem with rfl | hmem2
    · simp only [inputPass]
      rw [if_neg (by simp [hnd])]
      rw [parseCmdLineFn_none (fun f => (env.fileLines f).isSome)
        (lookupScanRange st.params) aIn hfe]
    · simp only [inputPass]
      cases hd : isDashArg b with
      | true =>
        rw [if_pos rfl]
        exact ih hmem2 _ _
      | false =>
        rw [if_neg (by simp)]
        cases hp : parseCmdLineFn (fun f => (env.fileLines f).isSome)
            (lookupScanRange st.params) b with
        | none => simp only [hp]
        | some info =>
          simp only [hp]
          exact ih hmem2 _ _

theorem exitCode_one (e : LoadError) : e.exitCode = 1 := by
  cases e <;> rfl

theorem processCmdLine_error_mem (env : Env) (args : List String) (e : Nat)
    (h : processCmdLine env args = Except.error e) : e = 0 ∨ e = 1 := by
  simp only [processCmdLine] at h
  split at h
  · injection h with h
    exact Or.inr h.symm
  · split at h
    · split at h
      · injection h with h
        exact Or.inl h.symm
      · injection h with h
        exact Or.inr h.symm
    · split at h
      · injection h with h
        exact Or.inr h.symm
      · split at h
        · injection h with h
          exact Or.inr (h.symm.trans (exitCode_one _))
        · exact Or.inr (inputPass_error_one env args _ _ _ h)

/-- C3: the process always exits 0 or 1.  It exits 1 with no arguments;
    under `-p` it exits 0 when `comet.params.new` is writable and 1
    otherwise; without `-p` it exits 1 when the params file does not
    open, when `LoadParameters` rejects it, or when a non-option
    argument names a file that does not open; and when `ProcessCmdLine`
    succeeds the `DoSearch` result decides between 0 and 1. -/
theorem c3_exit_codes (env : Env) (args : List String) :
    (mainExit env args = 0 ∨ mainExit env args = 1)
    ∧ (args.isEmpty = true → mainExit env args = 1)
    ∧ (args.isEmpty = false → hasPrintFlag args = true →
        mainExit env args = if env.writableNew then 0 else 1)
    ∧ (args.isEmpty = false → hasPrintFlag args = false →
        env.fileLines (pass1St env args).paramsFile = none →
        mainExit env args = 1)
    ∧ (∀ lines e, args.isEmpty = false → hasPrintFlag args = false →
        env.fileLines (pass1St env args).paramsFile = some lines →
        loadParameters env.validVer env.gEnz
          (initLoadSt (pass1St env args).params env.scr0) lines
            = Except.error e →
        mainExit env args = 1)
    ∧ (∀ aIn, args.isEmpty = false → hasPrintFlag args = false → aIn ∈ args →
        isDashArg aIn = false →
        (env.fileLines (String.mk (splitAtScanColon aIn.data).1)).isSome = false →
        mainExit env args = 1)
    ∧ (∀ r, processCmdLine env args = Except.ok r →
        mainExit env args = if env.doSearch then 0 else 1) := by
  have hps : optionsPass env (initCmdSt env) args = pass1St env args := rfl
  have hflagEq : (pass1St env args).bPrintParams = hasPrintFlag args := by
    show (optionsPass env (initCmdSt env) args).bPrintParams = _
    rw [optionsPass_flag]
    simp [initCmdSt]
  refine ⟨?_, ?_, ?_, ?_, ?_, ?_, ?_⟩
  · cases hae : args.isEmpty with
    | true =>
      right
      unfold mainExit
      rw [if_pos hae]
    | false =>
      cases hpc : processCmdLine env args with
      | error n =>
        have h01 := processCmdLine_error_mem env args n hpc
        have hm : mainExit env args = n := by simp [mainExit, hae, hpc]
        rw [hm]
        exact h01
      | ok r =>
        cases hds : env.doSearch with
        | true =>
          left
          simp [mainExit, hae, hpc, hds]
        | false =>
          right
          simp [mainExit, hae, hpc, hds]
  · intro h
    unfold mainExit
    rw [if_pos h]
  · intro hne hpf
    have hbp : (pass1St env args).bPrintParams = true := by rw [hflagEq]; exact hpf
    simp only [mainExit, processCmdLine, hne, Bool.false_eq_true, if_false]
    rw [hps]
    cases hw : env.writableNew with
    | true => simp [hbp, hw]
    | false => simp [hbp, hw]
  · intro hne hpf hfn
    have hbp : (pass1St env args).bPrintParams = false := by rw [hflagEq]; exact hpf
    simp only [mainExit, processCmdLine, hne, Bool.false_eq_true, if_false]
    rw [hps]
    simp [hbp, hfn]
  · intro lines e hne hpf hfl hle
    have hbp : (pass1St env args).bPrintParams = false := by rw [hflagEq]; exact hpf
    simp only [mainExit, processCmdLine, hne, Bool.false_eq_true, if_false]
    rw [hps]
    simp [hbp, hfl, hle, exitCode_one]
  · intro aIn hne hpf hmem hnd hfe
    have hbp : (pass1St env args).bPrintParams = false := by rw [hflagEq]; exact hpf
    simp only [mainExit, processCmdLine, hne, Bool.false_eq_true, if_false]
    rw [hps]
    cases hfl : env.fileLines (pass1St env args).paramsFile with
    | none => simp [hbp, hfl]
    | some lines =>
      cases hld : loadParameters env.validVer env.gEnz
          (initLoadSt (pass1St env args).params env.scr0) lines with
      | error e => simp [hbp, hfl, hld, exitCode_one]
      | ok lst =>
        simp only [hbp, Bool.false_eq_true, if_false, hfl, hld]
        rw [inputPass_fails env aIn hnd hfe args hmem _ _]
  · intro r hok
    cases hae : args.isEmpty with
    | true =>
      exfalso
      have hcontra : processCmdLine env args = Except.error 1 := by
        simp [processCmdLine, hae]
      rw [hok] at hcontra
      exact Except.noConfusion hcontra
    | false => simp [mainExit, hae, hok]

theorem c3_witness : mainExit envW ["-p"] = 0 :=
  ((c3_exit_codes envW ["-p"]).2.2.1 (by decide) (by decide)).trans (by decide)

set_option maxRecDepth 200000
set_option maxHeartbeats 4000000
set_option synthInstance.maxSize 20000
set_option synthInstance.maxHeartbeats 2000000

/-- C1: round-trip of the `-p` template.  Loading the exact file
    `PrintParams` writes (with the uninitialised sticky locals taken as
    zero) succeeds, and every parameter key the template states is
    stored with the template's typed value; for the double-valued keys
    the stored `Dbl` is also numerically equal to the value printed in
    the template text. -/
theorem c1_template_roundtrip :
    loadParameters isValidCometVersionModel 0 (initLoadSt [] zeroScratch) templateLines
      = Except.ok c1State
    ∧ List.lookup "database_name" c1State.params = some (PVal.s "/some/path/db.fasta")
    ∧ List.lookup "decoy_search" c1State.params = some (PVal.i (0))
    ∧ List.lookup "num_threads" c1State.params = some (PVal.i (0))
    ∧ (List.lookup "peptide_mass_tolerance" c1State.params = some (PVal.d (Dbl.mk 200 1)) ∧ Dbl.eqv (Dbl.mk 200 1) (Dbl.mk 20 0))
    ∧ (List.lookup "peptide_mass_tolerance_lower" c1State.params = some (PVal.d (Dbl.mk (-200) 1)) ∧ Dbl.eqv (Dbl.mk (-200) 1) (Dbl.mk (-20) 0))
    ∧ List.lookup "peptide_mass_units" c1State.params = some (PVal.i (2))
    ∧ List.lookup "mass_type_parent" c1State.params = some (PVal.i (1))
    ∧ List.lookup "mass_type_fragment" c1State.params = some (PVal.i (1))
    ∧ List.lookup "precursor_tolerance_type" c1State.params = some (PVal.i (1))
    ∧ List.lookup "isotope_error" c1State.params = some (PVal.i (3))
    ∧ List.lookup "search_enzyme_number" c1State.params = some (PVal.i (1))
    ∧ List.lookup "search_enzyme2_number" c1State.params = some (PVal.i (0))
    ∧ List.lookup "num_enzyme_termini" c1State.params = some (PVal.i (2))
    ∧ List.lookup "allowed_missed_cleavage" c1State.params = some (PVal.i (2))
    ∧ List.lookup "variable_mod01" c1State.params = some (PVal.vm (VarMods.mk (Dbl.mk 159949 4) "M" (0) (3) 0 (-1) (0) (0) (Dbl.mk 0 1)))
    ∧ List.lookup "variable_mod02" c1State.params = some (PVal.vm (VarMods.mk (Dbl.mk 0 1) "X" (0) (3) 0 (-1) (0) (0) (Dbl.mk 0 1)))
    ∧ List.lookup "variable_mod03" c1State.params = some (PVal.vm (VarMods.mk (Dbl.mk 0 1) "X" (0) (3) 0 (-1) (0) (0) (Dbl.mk 0 1)))
    ∧ List.lookup "variable_mod04" c1State.params = some (PVal.vm (VarMods.mk (Dbl.mk 0 1) "X" (0) (3) 0 (-1) (0) (0) (Dbl.mk 0 1)))
    ∧ List.lookup "variable_mod05" c1State.params = some (PVal.vm (VarMods.mk (Dbl.mk 0 1) "X" (0) (3) 0 (-1) (0) (0) (Dbl.mk 0 1)))
    ∧ List.lookup "variable_mod06" c1State.params = some (PVal.vm (VarMods.mk (Dbl.mk 0 1) "X" (0) (3) 0 (-1) (0) (0) (Dbl.mk 0 1)))
    ∧ List.lookup "variable_mod07" c1State.params = some (PVal.vm (VarMods.mk (Dbl.mk 0 1) "X" (0) (3) 0 (-1) (0) (0) (Dbl.mk 0 1)))
    ∧ List.lookup "variable_mod08" c1State.params = some (PVal.vm (VarMods.mk (Dbl.mk 0 1) "X" (0) (3) 0 (-1) (0) (0) (Dbl.mk 0 1)))
    ∧ List.lookup "variable_mod09" c1State.params = some (PVal.vm (VarMods.mk (Dbl.mk 0 1) "X" (0) (3) 0 (-1) (0) (0) (Dbl.mk 0 1)))
    ∧ List.lookup "max_variable_mods_in_peptide" c1State.params = some (PVal.i (5))
    ∧ List.lookup "require_variable_mod" c1State.params = some (PVal.s "0")
    ∧ List.lookup "scale_fragmentNL" c1State.params = some (PVal.i (0))
    ∧ (List.lookup "fragment_bin_tol" c1State.params = some (PVal.d (Dbl.mk 2 2)) ∧ Dbl.eqv (Dbl.mk 2 2) (Dbl.mk 2 2))
    ∧ (List.lookup "fragment_bin_offset" c1State.params = some (PVal.d (Dbl.mk 0 1)) ∧ Dbl.eqv (Dbl.mk 0 1) (Dbl.mk 0 0))
    ∧ List.lookup "theoretical_fragment_ions" c1State.params = some (PVal.i (0))
    ∧ List.lookup "use_A_ions" c1State.params = some (PVal.i (0))
    ∧ List.lookup "use_B_ions" c1State.params = some (PVal.i (1))
    ∧ List.lookup "use_C_ions" c1State.params = some (PVal.i (0))
    ∧ List.lookup "use_X_ions" c1State.params = some (PVal.i (0))
    ∧ List.lookup "use_Y_ions" c1State.params = some (PVal.i (1))
    ∧ List.lookup "use_Z_ions" c1State.params = some (PVal.i (0))
    ∧ List.lookup "use_Z1_ions" c1State.params = some (PVal.i (0))
    ∧ List.lookup "use_NL_ions" c1State.params = some (PVal.i (0))
    ∧ List.lookup "output_sqtfile" c1State.params = some (PVal.i (0))
    ∧ List.lookup "output_txtfile" c1State.params = some (PVal.i (0))
    ∧ List.lookup "output_pepxmlfile" c1State.params = some (PVal.i (1))
    ∧ List.lookup "output_mzidentmlfile" c1State.params = some (PVal.i (0))
    ∧ List.lookup "output_percolatorfile" c1State.params = some (PVal.i (0))
    ∧ List.lookup "print_expect_score" c1State.params = some (PVal.i (1))
    ∧ List.lookup "num_output_lines" c1State.params = some (PVal.i (5))
    ∧ List.lookup "sample_enzyme_number" c1State.params = some (PVal.i (1))
    ∧ List.lookup "scan_range" c1State.params = some (PVal.ir (0) (0))
    ∧ List.lookup "precursor_charge" c1State.params = some (PVal.ir (0) (0))
    ∧ List.lookup "override_charge" c1State.params = some (PVal.i (0))
    ∧ List.lookup "ms_level" c1State.params = some (PVal.i (2))
    ∧ List.lookup "activation_method" c1State.params = some (PVal.s "ALL")
    ∧ (List.lookup "digest_mass_range" c1State.params = some (PVal.dr (Dbl.mk 6000 1) (Dbl.mk 50000 1)) ∧ Dbl.eqv (Dbl.mk 6000 1) (Dbl.mk 600 0) ∧ Dbl.eqv (Dbl.mk 50000 1) (Dbl.mk 5000 0))
    ∧ List.lookup "peptide_length_range" c1State.params = some (PVal.ir (5) (50))
    ∧ List.lookup "num_results" c1State.params = some (PVal.i (100))
    ∧ List.lookup "max_duplicate_proteins" c1State.params = some (PVal.i (20))
    ∧ List.lookup "max_fragment_charge" c1State.params = some (PVal.i (3))
    ∧ List.lookup "max_precursor_charge" c1State.params = some (PVal.i (6))
    ∧ List.lookup "clip_nterm_methionine" c1State.params = some (PVal.i (0))
    ∧ List.lookup "spectrum_batch_size" c1State.params = some (PVal.i (15000))
    ∧ List.lookup "decoy_prefix" c1State.params = some (PVal.s "DECOY_")
    ∧ List.lookup "equal_I_and_L" c1State.params = some (PVal.i (1))
    ∧ List.lookup "output_suffix" c1State.params = some (PVal.s "")
    ∧ List.lookup "mass_offsets" c1State.params = some (PVal.dl [])
    ∧ List.lookup "precursor_NL_ions" c1State.params = some (PVal.dl [])
    ∧ List.lookup "minimum_peaks" c1State.params = some (PVal.i (10))
    ∧ (List.lookup "minimum_intensity" c1State.params = some (PVal.d (Dbl.mk 0 0)) ∧ Dbl.eqv (Dbl.mk 0 0) (Dbl.mk 0 0))
    ∧ List.lookup "remove_precursor_peak" c1State.params = some (PVal.i (0))
    ∧ (List.lookup "remove_precursor_tolerance" c1State.params = some (PVal.d (Dbl.mk 15 1)) ∧ Dbl.eqv (Dbl.mk 15 1) (Dbl.mk 15 1))
    ∧ (List.lookup "clear_mz_range" c1State.params = some (PVal.dr (Dbl.mk 0 1) (Dbl.mk 0 1)) ∧ Dbl.eqv (Dbl.mk 0 1) (Dbl.mk 0 0) ∧ Dbl.eqv (Dbl.mk 0 1) (Dbl.mk 0 0))
    ∧ (List.lookup "add_Cterm_peptide" c1State.params = some (PVal.d (Dbl.mk 0 1)) ∧ Dbl.eqv (Dbl.mk 0 1) (Dbl.mk 0 0))
    ∧ (List.lookup "add_Nterm_peptide" c1State.params = some (PVal.d (Dbl.mk 0 1)) ∧ Dbl.eqv (Dbl.mk 0 1) (Dbl.mk 0 0))
    ∧ (List.lookup "add_Cterm_protein" c1State.params = some (PVal.d (Dbl.mk 0 1)) ∧ Dbl.eqv (Dbl.mk 0 1) (Dbl.mk 0 0))
    ∧ (List.lookup "add_Nterm_protein" c1State.params = some (PVal.d (Dbl.mk 0 1)) ∧ Dbl.eqv (Dbl.mk 0 1) (Dbl.mk 0 0))
    ∧ (List.lookup "add_G_glycine" c1State.params = some (PVal.d (Dbl.mk 0 4)) ∧ Dbl.eqv (Dbl.mk 0 4) (Dbl.mk 0 0))
    ∧ (List.lookup "add_A_alanine" c1State.params = some (PVal.d (Dbl.mk 0 4)) ∧ Dbl.eqv (Dbl.mk 0 4) (Dbl.mk 0 0))
    ∧ (List.lookup "add_S_serine" c1State.params = some (PVal.d (Dbl.mk 0 4)) ∧ Dbl.eqv (Dbl.mk 0 4) (Dbl.mk 0 0))
    ∧ (List.lookup "add_P_proline" c1State.params = some (PVal.d (Dbl.mk 0 4)) ∧ Dbl.eqv (Dbl.mk 0 4) (Dbl.mk 0 0))
    ∧ (List.lookup "add_V_valine" c1State.params = some (PVal.d (Dbl.mk 0 4)) ∧ Dbl.eqv (Dbl.mk 0 4) (Dbl.mk 0 0))
    ∧ (List.lookup "add_T_threonine" c1State.params = some (PVal.d (Dbl.mk 0 4)) ∧ Dbl.eqv (Dbl.mk 0 4) (Dbl.mk 0 0))
    ∧ (List.lookup "add_C_cysteine" c1State.params = some (PVal.d (Dbl.mk 57021464 6)) ∧ Dbl.eqv (Dbl.mk 57021464 6) (Dbl.mk 57021464 6))
    ∧ (List.lookup "add_L_leucine" c1State.params = some (PVal.d (Dbl.mk 0 4)) ∧ Dbl.eqv (Dbl.mk 0 4) (Dbl.mk 0 0))
    ∧ (List.lookup "add_I_isoleucine" c1State.params = some (PVal.d (Dbl.mk 0 4)) ∧ Dbl.eqv (Dbl.mk 0 4) (Dbl.mk 0 0))
    ∧ (List.lookup "add_N_asparagine" c1State.params = some (PVal.d (Dbl.mk 0 4)) ∧ Dbl.eqv (Dbl.mk 0 4) (Dbl.mk 0 0))
    ∧ (List.lookup "add_D_aspartic_acid" c1State.params = some (PVal.d (Dbl.mk 0 4)) ∧ Dbl.eqv (Dbl.mk 0 4) (Dbl.mk 0 0))
    ∧ (List.lookup "add_Q_glutamine" c1State.params = some (PVal.d (Dbl.mk 0 4)) ∧ Dbl.eqv (Dbl.mk 0 4) (Dbl.mk 0 0))
    ∧ (List.lookup "add_K_lysine" c1State.params = some (PVal.d (Dbl.mk 0 4)) ∧ Dbl.eqv (Dbl.mk 0 4) (Dbl.mk 0 0))
    ∧ (List.lookup "add_E_glutamic_acid" c1State.params = some (PVal.d (Dbl.mk 0 4)) ∧ Dbl.eqv (Dbl.mk 0 4) (Dbl.mk 0 0))
    ∧ (List.lookup "add_M_methionine" c1State.params = some (PVal.d (Dbl.mk 0 4)) ∧ Dbl.eqv (Dbl.mk 0 4) (Dbl.mk 0 0))
    ∧ (List.lookup "add_H_histidine" c1State.params = some (PVal.d (Dbl.mk 0 4)) ∧ Dbl.eqv (Dbl.mk 0 4) (Dbl.mk 0 0))
    ∧ (List.lookup "add_F_phenylalanine" c1State.params = some (PVal.d (Dbl.mk 0 4)) ∧ Dbl.eqv (Dbl.mk 0 4) (Dbl.mk 0 0))
    ∧ (List.lookup "add_U_selenocysteine" c1State.params = some (PVal.d (Dbl.mk 0 4)) ∧ Dbl.eqv (Dbl.mk 0 4) (Dbl.mk 0 0))
    ∧ (List.lookup "add_R_arginine" c1State.params = some (PVal.d (Dbl.mk 0 4)) ∧ Dbl.eqv (Dbl.mk 0 4) (Dbl.mk 0 0))
    ∧ (List.lookup "add_Y_tyrosine" c1State.params = some (PVal.d (Dbl.mk 0 4)) ∧ Dbl.eqv (Dbl.mk 0 4) (Dbl.mk 0 0))
    ∧ (List.lookup "add_W_tryptophan" c1State.params = some (PVal.d (Dbl.mk 0 4)) ∧ Dbl.eqv (Dbl.mk 0 4) (Dbl.mk 0 0))
    ∧ (List.lookup "add_O_pyrrolysine" c1State.params = some (PVal.d (Dbl.mk 0 4)) ∧ Dbl.eqv (Dbl.mk 0 4) (Dbl.mk 0 0))
    ∧ (List.lookup "add_B_user_amino_acid" c1State.params = some (PVal.d (Dbl.mk 0 4)) ∧ Dbl.eqv (Dbl.mk 0 4) (Dbl.mk 0 0))
    ∧ (List.lookup "add_J_user_amino_acid" c1State.params = some (PVal.d (Dbl.mk 0 4)) ∧ Dbl.eqv (Dbl.mk 0 4) (Dbl.mk 0 0))
    ∧ (List.lookup "add_X_user_amino_acid" c1State.params = some (PVal.d (Dbl.mk 0 4)) ∧ Dbl.eqv (Dbl.mk 0 4) (Dbl.mk 0 0))
    ∧ (List.lookup "add_Z_user_amino_acid" c1State.params = some (PVal.d (Dbl.mk 0 4)) ∧ Dbl.eqv (Dbl.mk 0 4) (Dbl.mk 0 0)) :=
  ⟨by decide, by decide⟩

end Comet
